import Mathlib

/-!
Shallow embedding of `custom_components/skylight_local/api.py` (HTTP client,
status-page decoder, and runtime controller for a Skylight lamp), together
with theorems settling the specification claims about it.

Modelling conventions:
* Python `str` is Lean `String`; Python `int` is `ℤ`; Python `float` values
  are modelled as exact rationals `ℚ` (the claims only exercise values that
  are exact decimals, where IEEE double behaviour coincides with the
  rational computation; non-finite floats `inf`/`nan` and underscore digit
  separators in numeric literals are outside the modelled fragment).
* Fallible code returns `Except Err _`; `HomeAssistantError` raised before
  any network call is `Err.invalidArg`, the uniform transport failure of
  `SkylightHttpClient._get` (client error, timeout, or HTTP status ≥ 400)
  is `Err.unreachable` carrying its message.
* The network and `time.monotonic()` are an oracle threaded explicitly: a
  `World` holds the pending outcome of each future HTTP GET, the pending
  monotonic clock readings, and the log of requests issued so far.
* The code is single-threaded here; the `asyncio.Lock` guarding
  `refresh_diagnostics` only matters under concurrency and is not modelled.
-/

unseal Rat.mul Rat.inv Rat.add Rat.sub Rat.ofScientific

namespace Skylight

/-! ### Python string and number primitives -/

/-- Characters Python treats as ASCII whitespace (`str.strip()`,
`bytes.fromhex` skipping); the unicode whitespace beyond ASCII is outside
the modelled fragment. -/
def isPySpace (c : Char) : Bool :=
  c = ' ' || c = '\t' || c = '\n' || c = '\r' || c = '\x0b' || c = '\x0c'

/-- Python `s.strip()` restricted to ASCII whitespace. -/
def pyStrip (s : String) : String :=
  String.mk (((s.data.dropWhile isPySpace).reverse.dropWhile isPySpace).reverse)

/-- Strip NUL characters from both ends, as Python `s.strip("\x00")` does. -/
def stripNulBoth (cs : List Char) : List Char :=
  ((cs.dropWhile (· = '\x00')).reverse.dropWhile (· = '\x00')).reverse

/-- Auxiliary for `pySplitlines`: walk the characters, breaking at `\n`,
`\r` and `\r\n` (the further unicode line boundaries Python recognises are
outside the modelled fragment); `acc` holds the current line reversed. -/
def pySplitlinesAux : List Char → List Char → List String
  | [], acc => if acc.isEmpty then [] else [String.mk acc.reverse]
  | '\r' :: '\n' :: rest, acc => String.mk acc.reverse :: pySplitlinesAux rest []
  | '\r' :: rest, acc => String.mk acc.reverse :: pySplitlinesAux rest []
  | '\n' :: rest, acc => String.mk acc.reverse :: pySplitlinesAux rest []
  | c :: rest, acc => pySplitlinesAux rest (c :: acc)

/-- Python `str.splitlines()`: no trailing empty line, `""` gives `[]`. -/
def pySplitlines (s : String) : List String :=
  pySplitlinesAux s.data []

/-- Auxiliary for `pySplitTab`: break at every separator, keeping empty
fields; `acc` holds the current field reversed. -/
def pySplitSepAux (sep : Char) : List Char → List Char → List String
  | [], acc => [String.mk acc.reverse]
  | c :: rest, acc =>
    if c = sep then String.mk acc.reverse :: pySplitSepAux sep rest []
    else pySplitSepAux sep rest (c :: acc)

/-- Python `line.split("\t")`: every separator occurrence splits, empty
fields kept, `""` gives `[""]`. -/
def pySplitTab (s : String) : List String :=
  pySplitSepAux '\t' s.data []

/-- Numeric value of a list of decimal digit characters. -/
def digitsToNat (ds : List Char) : ℕ :=
  ds.foldl (fun a c => a * 10 + (c.toNat - 48)) 0

/-- Python `int(s)` on the fragment `[ws] [+-] digits [ws]` (underscore
separators unmodelled); anything else is `ValueError`, i.e. `none`. -/
def pyInt? (s : String) : Option ℤ :=
  let cs := (s.data.dropWhile isPySpace).reverse.dropWhile isPySpace |>.reverse
  let (sgn, ds) : ℤ × List Char :=
    match cs with
    | '-' :: rest => (-1, rest)
    | '+' :: rest => (1, rest)
    | rest => (1, rest)
  if ds ≠ [] ∧ ds.all Char.isDigit then some (sgn * digitsToNat ds) else none

/-- Exponent tail of a Python float literal: `e`/`E`, optional sign, digits. -/
def pyFloatExp? : List Char → Option ℤ
  | [] => some 0
  | 'e' :: rest | 'E' :: rest =>
    let (sgn, ds) : ℤ × List Char :=
      match rest with
      | '-' :: r => (-1, r)
      | '+' :: r => (1, r)
      | r => (1, r)
    if ds ≠ [] ∧ ds.all Char.isDigit then some (sgn * digitsToNat ds) else none
  | _ => none

/-- Python `float(s)` on the fragment of finite decimal literals
`[ws] [+-] (digits [. digits] | . digits) [(e|E) [+-] digits] [ws]`
(`inf`, `nan` and underscore separators unmodelled). -/
def pyFloat? (s : String) : Option ℚ :=
  let cs := (s.data.dropWhile isPySpace).reverse.dropWhile isPySpace |>.reverse
  let (sgn, cs₁) : ℚ × List Char :=
    match cs with
    | '-' :: rest => (-1, rest)
    | '+' :: rest => (1, rest)
    | rest => (1, rest)
  let ip := cs₁.takeWhile Char.isDigit
  let r₁ := cs₁.dropWhile Char.isDigit
  let (fp, r₂) : List Char × List Char :=
    match r₁ with
    | '.' :: rest => (rest.takeWhile Char.isDigit, rest.dropWhile Char.isDigit)
    | _ => ([], r₁)
  if ip = [] ∧ fp = [] then none
  else
    match pyFloatExp? r₂ with
    | none => none
    | some e =>
      let mant : ℚ := (digitsToNat ip : ℚ) + (digitsToNat fp : ℚ) / (10 : ℚ) ^ fp.length
      some (sgn * mant * (10 : ℚ) ^ (e : ℤ))

/-- Round-half-even to the nearest integer, the rounding Python uses when
formatting and `round`ing floats. -/
def roundHalfEven (q : ℚ) : ℤ :=
  let f := ⌊q⌋
  let r := q - (f : ℚ)
  if r < 1 / 2 then f
  else if 1 / 2 < r then f + 1
  else if f % 2 = 0 then f else f + 1

/-- Python `round(x, 1)` on the modelled rational fragment. -/
def roundTo1 (q : ℚ) : ℚ :=
  (roundHalfEven (q * 10) : ℚ) / 10

/-- The decimal digits of `n`, least significant first, with explicit fuel
(structural recursion keeps kernel reduction available); `n` itself is
always enough fuel. -/
def natDigitsRev : ℕ → ℕ → List ℕ
  | 0, _ => []
  | fuel + 1, n => if n = 0 then [] else n % 10 :: natDigitsRev fuel (n / 10)

/-- Number of decimal digits of `n` (`0` has none). -/
def decDigitCount (n : ℕ) : ℕ := (natDigitsRev n n).length

/-- For `0 < v`, the unique `e` with `10 ^ e ≤ v < 10 ^ (e + 1)`. -/
def decExp (v : ℚ) : ℤ :=
  let g : ℤ := (decDigitCount v.num.natAbs : ℤ) - (decDigitCount v.den : ℤ)
  if (10 : ℚ) ^ g ≤ v then g else g - 1

/-- Drop the trailing `'0'` characters of a fractional digit list. -/
def stripTrailingZeros (frac : List Char) : List Char :=
  (frac.reverse.dropWhile (· = '0')).reverse

/-- The decimal digit characters of `n`, most significant first. -/
def natDigitChars (n : ℕ) : List Char :=
  ((natDigitsRev n n).reverse).map (fun d => Char.ofNat (d + 48))

/-- Python `format(v, "g")` (the `f"{value:g}"` conversion of the source):
round to 6 significant digits, use exponent notation when the decimal
exponent is below -4 or at least 6, and strip insignificant trailing
zeros.  Modelled on exact rationals; faithful wherever the IEEE double
and the rational round to the same 6 significant digits. -/
def formatG (v : ℚ) : String :=
  if v = 0 then "0"
  else
    let sign := if v < 0 then "-" else ""
    let x := |v|
    let e0 := decExp x
    let m0 := roundHalfEven (x / (10 : ℚ) ^ (e0 - 5))
    let m : ℤ := if m0 = 10 ^ 6 then 10 ^ 5 else m0
    let e : ℤ := if m0 = 10 ^ 6 then e0 + 1 else e0
    let ds := natDigitChars m.natAbs
    if e < -4 ∨ 6 ≤ e then
      let frac := stripTrailingZeros (ds.drop 1)
      let mant := String.mk (ds.take 1 ++ (if frac.isEmpty then [] else '.' :: frac))
      let esign := if e < 0 then "-" else "+"
      let eabs := e.natAbs
      let edig := if eabs < 10 then "0" ++ toString eabs else toString eabs
      sign ++ mant ++ "e" ++ esign ++ edig
    else if 0 ≤ e then
      let ip := ds.take (e.toNat + 1)
      let frac := stripTrailingZeros (ds.drop (e.toNat + 1))
      sign ++ String.mk (ip ++ (if frac.isEmpty then [] else '.' :: frac))
    else
      let zeros := List.replicate ((-e).toNat - 1) '0'
      let frac := stripTrailingZeros (zeros ++ ds)
      sign ++ "0." ++ String.mk frac

/-- Hex value of one character, accepting both cases. -/
def hexVal? (c : Char) : Option ℕ :=
  if '0' ≤ c ∧ c ≤ '9' then some (c.toNat - 48)
  else if 'a' ≤ c ∧ c ≤ 'f' then some (c.toNat - 87)
  else if 'A' ≤ c ∧ c ≤ 'F' then some (c.toNat - 55)
  else none

/-- Python `bytes.fromhex`: ASCII whitespace may separate byte pairs, each
byte is exactly two adjacent hex digits; anything else is `ValueError`. -/
def bytesFromHex? : List Char → Option (List ℕ)
  | [] => some []
  | c :: rest =>
    if isPySpace c then bytesFromHex? rest
    else
      match hexVal? c with
      | none => none
      | some h =>
        match rest with
        | [] => none
        | c₂ :: rest₂ =>
          match hexVal? c₂ with
          | some l => (bytesFromHex? rest₂).map (fun bs => (h * 16 + l) :: bs)
          | none => none

/-- Python `bytes.decode("ascii", errors="ignore")`: keep bytes below 128. -/
def asciiDecodeIgnore (bs : List ℕ) : List Char :=
  bs.filterMap (fun b => if b < 128 then some (Char.ofNat b) else none)

/-! ### Status decoder (`SkylightStatus`, `parse_status_page`) -/

/-- `SkylightStatus`: normalized status parsed from `/statusPage`; every
field defaults to `None`. -/
structure SkylightStatus where
  name : Option String := none
  model : Option String := none
  mac : Option String := none
  is_master : Option Bool := none
  master_mac : Option String := none
  clone_count : Option ℤ := none
  sntp_enabled : Option Bool := none
  date : Option String := none
  time : Option String := none
  pwm_freq : Option ℤ := none
  pwm0 : Option ℚ := none
  pwm1 : Option ℚ := none
  pwm2 : Option ℚ := none
  pwm3 : Option ℚ := none
  manual_intensity : Option ℚ := none
  manual_color : Option ℚ := none
  calib_pwm : Option ℤ := none
  night_mode_enabled : Option Bool := none
  schedule_enabled : Option Bool := none
  schedule_items_count : Option ℤ := none
  schedule_active_item_idx : Option ℤ := none
deriving DecidableEq, Repr

/-- `_to_int`: `int(value)` when the token is non-empty, `None` on
`ValueError` or an empty token. -/
def to_int (value : String) : Option ℤ :=
  if value = "" then none else pyInt? value

/-- `_to_float`: `float(value)` when the token is non-empty, `None` on
`ValueError` or an empty token. -/
def to_float (value : String) : Option ℚ :=
  if value = "" then none else pyFloat? value

/-- `_raw_pwm_to_percent`: parse as float, scale by 100/255, clamp to
[0, 100], round to one decimal place. -/
def raw_pwm_to_percent (value : String) : Option ℚ :=
  match to_float value with
  | none => none
  | some raw => some (roundTo1 (max 0 (min 100 (raw * 100 / 255))))

/-- `_decode_hex_text`: empty token is `None`; odd length passes through;
even length is decoded via `bytes.fromhex` (`ValueError` passes through),
ASCII with invalid bytes ignored, NULs stripped from both ends. -/
def decode_hex_text (value : String) : Option String :=
  if value = "" then none
  else if value.length % 2 ≠ 0 then some value
  else
    match bytesFromHex? value.data with
    | some bs => some (String.mk (stripNulBoth (asciiDecodeIgnore bs)))
    | none => some value

/-- The non-empty lines of the raw status body:
`[line for line in raw.splitlines() if line != ""]`. -/
def statusLines (raw : String) : List String :=
  (pySplitlines raw).filter (fun line => line ≠ "")

/-- First status line: identity and topology fields. -/
def applyLine0 (parts : List String) (st : SkylightStatus) : SkylightStatus :=
  { st with
    name := if parts.length > 0 then decode_hex_text (parts.getD 0 "") else none
    model := if parts.length > 1 then decode_hex_text (parts.getD 1 "") else none
    mac := if parts.length > 2 ∧ parts.getD 2 "" ≠ "" then some (parts.getD 2 "") else none
    is_master :=
      if parts.length > 3 ∧ parts.getD 3 "" ≠ "" then some (parts.getD 3 "" = "1") else none
    master_mac := if parts.length > 4 ∧ parts.getD 4 "" ≠ "" then some (parts.getD 4 "") else none
    clone_count := if parts.length > 5 then to_int (parts.getD 5 "") else none }

/-- Second status line: clock fields. -/
def applyLine1 (parts : List String) (st : SkylightStatus) : SkylightStatus :=
  { st with
    sntp_enabled :=
      if parts.length > 0 ∧ parts.getD 0 "" ≠ "" then some (parts.getD 0 "" = "1") else none
    date := if parts.length > 1 ∧ parts.getD 1 "" ≠ "" then some (parts.getD 1 "") else none
    time := if parts.length > 2 ∧ parts.getD 2 "" ≠ "" then some (parts.getD 2 "") else none }

/-- Third status line: PWM fields. -/
def applyLine2 (parts : List String) (st : SkylightStatus) : SkylightStatus :=
  { st with
    pwm_freq := if parts.length > 0 then to_int (parts.getD 0 "") else none
    pwm0 := if parts.length > 1 then raw_pwm_to_percent (parts.getD 1 "") else none
    pwm1 := if parts.length > 2 then raw_pwm_to_percent (parts.getD 2 "") else none
    pwm2 := if parts.length > 3 then raw_pwm_to_percent (parts.getD 3 "") else none
    pwm3 := if parts.length > 4 then raw_pwm_to_percent (parts.getD 4 "") else none
    manual_intensity := if parts.length > 5 then to_float (parts.getD 5 "") else none
    manual_color := if parts.length > 6 then to_float (parts.getD 6 "") else none
    calib_pwm := if parts.length > 7 then to_int (parts.getD 7 "") else none
    night_mode_enabled :=
      if parts.length > 8 ∧ parts.getD 8 "" ≠ "" then some (parts.getD 8 "" = "1") else none }

/-- Fourth status line: schedule fields. -/
def applyLine3 (parts : List String) (st : SkylightStatus) : SkylightStatus :=
  { st with
    schedule_enabled :=
      if parts.length > 0 ∧ parts.getD 0 "" ≠ "" then some (parts.getD 0 "" = "1") else none
    schedule_items_count := if parts.length > 1 then to_int (parts.getD 1 "") else none
    schedule_active_item_idx := if parts.length > 2 then to_int (parts.getD 2 "") else none }

/-- `parse_status_page`: split into non-empty lines, then decode up to four
lines positionally, each line split on tabs. -/
def parse_status_page (raw : String) : SkylightStatus :=
  let lines := statusLines raw
  let s₀ : SkylightStatus := {}
  let s₁ := if lines.length > 0 then applyLine0 (pySplitTab (lines.getD 0 "")) s₀ else s₀
  let s₂ := if lines.length > 1 then applyLine1 (pySplitTab (lines.getD 1 "")) s₁ else s₁
  let s₃ := if lines.length > 2 then applyLine2 (pySplitTab (lines.getD 2 "")) s₂ else s₂
  if lines.length > 3 then applyLine3 (pySplitTab (lines.getD 3 "")) s₃ else s₃

/-! ### Transport (`SkylightHttpClient._get` and the network oracle) -/

/-- The two endpoints of the lamp. -/
inductive Url where
  | scheduleSettings
  | statusPage
deriving DecidableEq, Repr

/-- The two mutually exclusive query keys of the command endpoint. -/
inductive QKey where
  | params
  | ctrl
deriving DecidableEq, Repr

/-- One HTTP GET as issued by `_get`: endpoint plus at most one query pair. -/
structure Request where
  url : Url
  query : Option (QKey × String)
deriving DecidableEq, Repr

/-- Errors: `invalidArg` for `HomeAssistantError`s raised before any network
call, `unreachable` for the uniform transport failure of `_get` (network
error, timeout, or HTTP status ≥ 400), carrying its message as the cause. -/
inductive Err where
  | invalidArg (msg : String)
  | unreachable (cause : String)
deriving DecidableEq, Repr

/-- The environment oracle: the outcome the network will give each future
GET in order (`Except.error` = the uniform transport failure of `_get`),
the future readings of `time.monotonic()`, and the log of requests issued
so far. -/
structure World where
  pending : List (Except String String)
  clock : List ℚ
  log : List Request
deriving Repr

/-- `SkylightHttpClient._get`: issue one GET, consume the next pending
network outcome; a failure outcome surfaces as `Err.unreachable` with the
underlying cause (an exhausted oracle also counts as unreachable). -/
def httpGet (url : Url) (query : Option (QKey × String)) (w : World) :
    Except Err String × World :=
  let w' : World := { w with pending := w.pending.tail, log := w.log ++ [⟨url, query⟩] }
  match w.pending with
  | Except.ok body :: _ => (Except.ok body, w')
  | Except.error cause :: _ => (Except.error (Err.unreachable cause), w')
  | [] => (Except.error (Err.unreachable "no response"), w')

/-- Read `time.monotonic()` from the oracle. -/
def readMonotonic (w : World) : ℚ × World :=
  (w.clock.headD 0, { w with clock := w.clock.tail })

/-! ### HTTP client methods (`SkylightHttpClient`) -/

namespace Client

/-- `send_params`: GET `/scheduleSettings?params=<value>`, discard body. -/
def send_params (value : String) (w : World) : Except Err Unit × World :=
  let (r, w') := httpGet Url.scheduleSettings (some (QKey.params, value)) w
  (r.map (fun _ => ()), w')

/-- `send_ctrl`: GET `/scheduleSettings?ctrl=<value>`, discard body. -/
def send_ctrl (value : String) (w : World) : Except Err Unit × World :=
  let (r, w') := httpGet Url.scheduleSettings (some (QKey.ctrl, value)) w
  (r.map (fun _ => ()), w')

/-- `set_manual_mode`: disable AUTO mode before manual controls. -/
def set_manual_mode (w : World) : Except Err Unit × World := send_params "9" w

/-- `set_off_mode`: wire-identical to disabling manual mode. -/
def set_off_mode (w : World) : Except Err Unit × World := send_params "9" w

/-- `set_auto_mode`. -/
def set_auto_mode (w : World) : Except Err Unit × World := send_params "a" w

/-- `set_demo_mode`. -/
def set_demo_mode (w : World) : Except Err Unit × World := send_params "c" w

/-- `get_firmware_version`: try `params=n1`; on any transport failure try
`params=n` once and let its failure surface; strip the successful body. -/
def get_firmware_version (w : World) : Except Err String × World :=
  match httpGet Url.scheduleSettings (some (QKey.params, "n1")) w with
  | (Except.ok s, w') => (Except.ok (pyStrip s), w')
  | (Except.error _, w') =>
    match httpGet Url.scheduleSettings (some (QKey.params, "n")) w' with
    | (Except.ok s, w'') => (Except.ok (pyStrip s), w'')
    | (Except.error e, w'') => (Except.error e, w'')

/-- `get_status_page`: GET `/statusPage` with no query. -/
def get_status_page (w : World) : Except Err String × World :=
  httpGet Url.statusPage none w

/-- `set_channel_pwm`: reject a channel outside 0..3 before any network
call, else send `ctrl=7{channel}{value:g}`. -/
def set_channel_pwm (channel : ℤ) (value : ℚ) (w : World) : Except Err Unit × World :=
  if channel < 0 ∨ channel > 3 then
    (Except.error (Err.invalidArg ("Invalid channel: " ++ toString channel)), w)
  else
    send_ctrl ("7" ++ toString channel ++ formatG value) w

/-- `set_all_channels`: `ctrl=74{ch0:g}h{ch1:g}i{ch2:g}j{ch3:g}k{color_code}l{intensity:g}m`. -/
def set_all_channels (ch0 ch1 ch2 ch3 : ℚ) (color_code : ℤ) (intensity : ℚ)
    (w : World) : Except Err Unit × World :=
  send_ctrl ("74" ++ formatG ch0 ++ "h" ++ formatG ch1 ++ "i" ++ formatG ch2 ++ "j" ++
    formatG ch3 ++ "k" ++ toString color_code ++ "l" ++ formatG intensity ++ "m") w

/-- `set_pwm_frequency`: `ctrl=75{hz}`. -/
def set_pwm_frequency (hz : ℤ) (w : World) : Except Err Unit × World :=
  send_ctrl ("75" ++ toString hz) w

/-- `get_pwm_frequency`: `ctrl=76`, stripped body returned. -/
def get_pwm_frequency (w : World) : Except Err String × World :=
  let (r, w') := httpGet Url.scheduleSettings (some (QKey.ctrl, "76")) w
  (r.map pyStrip, w')

/-- `init_pwm`: `ctrl=78`. -/
def init_pwm (w : World) : Except Err Unit × World := send_ctrl "78" w

/-- `rtc_sync`: `ctrl=6`. -/
def rtc_sync (w : World) : Except Err Unit × World := send_ctrl "6" w

/-- `set_timezone`: `ctrl=b{value}`. -/
def set_timezone (value : String) (w : World) : Except Err Unit × World :=
  send_ctrl ("b" ++ value) w

/-- `add_clone_mac`: `params=k{mac}`. -/
def add_clone_mac (mac_no_sep : String) (w : World) : Except Err Unit × World :=
  send_params ("k" ++ mac_no_sep) w

/-- `remove_clone_mac`: `params=l{mac}`. -/
def remove_clone_mac (mac_no_sep : String) (w : World) : Except Err Unit × World :=
  send_params ("l" ++ mac_no_sep) w

/-- `clear_master_and_clone`: `params=j`. -/
def clear_master_and_clone (w : World) : Except Err Unit × World := send_params "j" w

/-- `set_clone_mode`: `params=i`. -/
def set_clone_mode (w : World) : Except Err Unit × World := send_params "i" w

/-- `clear_schedule`: `params=4`. -/
def clear_schedule (w : World) : Except Err Unit × World := send_params "4" w

/-- `save_schedule`: `params=6`. -/
def save_schedule (w : World) : Except Err Unit × World := send_params "6" w

/-- `start_old_schedule_transfer`: `params=7_{count}`. -/
def start_old_schedule_transfer (count : ℤ) (w : World) : Except Err Unit × World :=
  send_params ("7_" ++ toString count) w

/-- `old_schedule_payload`: `params=g_{payload}`. -/
def old_schedule_payload (payload : String) (w : World) : Except Err Unit × World :=
  send_params ("g_" ++ payload) w

/-- `start_safe_schedule_transfer`: `params=p_{count}`. -/
def start_safe_schedule_transfer (count : ℤ) (w : World) : Except Err Unit × World :=
  send_params ("p_" ++ toString count) w

/-- `safe_schedule_payload`: `params=s_{payload}`. -/
def safe_schedule_payload (payload : String) (w : World) : Except Err Unit × World :=
  send_params ("s_" ++ payload) w

/-- `start_new_schedule`: `params=r`. -/
def start_new_schedule (w : World) : Except Err Unit × World := send_params "r" w

/-- `read_description`: `ctrl=g0`, stripped body. -/
def read_description (w : World) : Except Err String × World :=
  let (r, w') := httpGet Url.scheduleSettings (some (QKey.ctrl, "g0")) w
  (r.map pyStrip, w')

/-- `read_led_status`: `ctrl=g2`, stripped body. -/
def read_led_status (w : World) : Except Err String × World :=
  let (r, w') := httpGet Url.scheduleSettings (some (QKey.ctrl, "g2")) w
  (r.map pyStrip, w')

/-- `read_schedule_status`: `ctrl=g30`, stripped body. -/
def read_schedule_status (w : World) : Except Err String × World :=
  let (r, w') := httpGet Url.scheduleSettings (some (QKey.ctrl, "g30")) w
  (r.map pyStrip, w')

/-- `read_schedule_string`: `ctrl=g31`, stripped body. -/
def read_schedule_string (w : World) : Except Err String × World :=
  let (r, w') := httpGet Url.scheduleSettings (some (QKey.ctrl, "g31")) w
  (r.map pyStrip, w')

/-- `read_status_g8`: `ctrl=g8`, stripped body. -/
def read_status_g8 (w : World) : Except Err String × World :=
  let (r, w') := httpGet Url.scheduleSettings (some (QKey.ctrl, "g8")) w
  (r.map pyStrip, w')

/-- `set_night_mode`: `ctrl=gt01` when enabled, `ctrl=gt00` otherwise. -/
def set_night_mode (enabled : Bool) (w : World) : Except Err Unit × World :=
  send_ctrl (if enabled then "gt01" else "gt00") w

/-- `manual_mode_1h`: `ctrl=gu1`. -/
def manual_mode_1h (w : World) : Except Err Unit × World := send_ctrl "gu1" w

/-- `manual_mode_default`: `ctrl=gu3`. -/
def manual_mode_default (w : World) : Except Err Unit × World := send_ctrl "gu3" w

/-- Python truthiness of an optional string argument defaulting to `None`:
`bool(None) = bool("") = False`. -/
def pyTruthy (o : Option String) : Bool :=
  o.getD "" ≠ ""

/-- `send_raw`: `bool(params) == bool(ctrl)` raises before any network
call; else one GET under the truthy key, raw body returned. -/
def send_raw (params ctrl : Option String) (w : World) : Except Err String × World :=
  if pyTruthy params = pyTruthy ctrl then
    (Except.error (Err.invalidArg "Provide exactly one of params or ctrl"), w)
  else if pyTruthy params then
    httpGet Url.scheduleSettings (some (QKey.params, params.getD "")) w
  else
    httpGet Url.scheduleSettings (some (QKey.ctrl, ctrl.getD "")) w

end Client

/-! ### Controller (`SkylightController`) -/

/-- The enumerated logical modes.  Modelled from the spec: the `MODE_*`
string constants live in `const.py`, which is not under `src/`; the spec
enumerates the modes as OFF, AUTO, MANUAL, DEMO. -/
inductive Mode where
  | OFF
  | AUTO
  | MANUAL
  | DEMO
deriving DecidableEq, Repr

/-- The mutable controller fields (`self._last_refresh_monotonic` and the
public attributes of `SkylightController`). -/
structure CState where
  selected_preset : String
  power : ℤ
  firmware_version : Option String
  status : Option SkylightStatus
  is_auto_mode : Bool
  mode : Mode
  last_raw_response : Option String
  last_refresh_monotonic : ℚ
deriving DecidableEq, Repr

/-- The static external data the controller reads.  Modelled from the spec:
`PRESETS` lives in `presets.py`, which is not under `src/`; the spec says
it is an immutable mapping from preset name to a free-form ctrl command
template string. -/
structure Env where
  presets : String → Option String

/-- Whole-token match of `_POWER_PATTERN`'s tail `\d+(?:\.\d+)?m` followed
by end of input: one or more digits, an optional dot-fraction, then a final
`m`. -/
def matchNumM (cs : List Char) : Bool :=
  let ds := cs.takeWhile Char.isDigit
  let rest := cs.dropWhile Char.isDigit
  if ds.isEmpty then false
  else if rest = ['m'] then true
  else if rest.headD ' ' = '.' then
    let ds₂ := rest.tail.takeWhile Char.isDigit
    let rest₃ := rest.tail.dropWhile Char.isDigit
    !ds₂.isEmpty && rest₃ = ['m']
  else false

/-- Whole-token match of `_POWER_PATTERN = l-?\d+(?:\.\d+)?m$` against the
characters from some position to the end of the string: a literal `l`, an
optional minus, then digits, optional fraction and the final `m`. -/
def powerSuffixMatch : List Char → Bool
  | [] => false
  | c :: rest =>
    c = 'l' && (if rest.headD ' ' = '-' then matchNumM rest.tail else matchNumM rest)

/-- `_POWER_PATTERN.sub(f"l{power}m", base)`: replace the leftmost (hence,
as proved below, unique) end-anchored match by `l{power}m`. -/
def powerSubList (power : ℤ) : List Char → List Char
  | [] => []
  | c :: rest =>
    if powerSuffixMatch (c :: rest) then ("l" ++ toString power ++ "m").data
    else c :: powerSubList power rest

/-- `SkylightController._ctrl_with_power` applied to a preset template
`base` (the warning log on a non-matching template has no effect here). -/
def ctrl_with_power (power : ℤ) (base : String) : String :=
  String.mk (powerSubList power base.data)

namespace Ctl

/-- Run one fire-and-forget client call, then apply the mutation `f` to the
controller state only when the call succeeded (a raised error skips it). -/
def stepUnit (res : Except Err Unit × World) (f : CState → CState) (s : CState) :
    Except Err Unit × CState × World :=
  match res with
  | (Except.ok _, w') => (Except.ok (), f s, w')
  | (Except.error e, w') => (Except.error e, s, w')

/-- Run one read client call; on success store the body in
`last_raw_response` and return it. -/
def stepRead (res : Except Err String × World) (s : CState) :
    Except Err String × CState × World :=
  match res with
  | (Except.ok r, w') => (Except.ok r, { s with last_raw_response := some r }, w')
  | (Except.error e, w') => (Except.error e, s, w')

/-- `set_power`: clamp to [0, 100] and store; no network call. -/
def set_power (power : ℤ) (s : CState) : CState :=
  { s with power := max 0 (min 100 power) }

/-- `apply_preset`: validate the preset, build its ctrl string with the
current power, send manual-mode-enable then the ctrl command, and only then
update preset, auto-flag and mode.  Python's `preset or
self.selected_preset` falls back on an empty as well as a missing
argument. -/
def apply_preset (env : Env) (preset : Option String) (s : CState) (w : World) :
    Except Err Unit × CState × World :=
  let target := if Client.pyTruthy preset then preset.getD "" else s.selected_preset
  match env.presets target with
  | none => (Except.error (Err.invalidArg ("Unknown preset: " ++ target)), s, w)
  | some base =>
    let ctrl := ctrl_with_power s.power base
    match Client.set_manual_mode w with
    | (Except.error e, w') => (Except.error e, s, w')
    | (Except.ok _, w') =>
      match Client.send_ctrl ctrl w' with
      | (Except.error e, w'') => (Except.error e, s, w'')
      | (Except.ok _, w'') =>
        (Except.ok (),
         { s with selected_preset := target, is_auto_mode := false, mode := Mode.MANUAL },
         w'')

/-- `set_power_and_apply`: store the clamped power, then apply the selected
preset (the power write precedes the network calls). -/
def set_power_and_apply (env : Env) (power : ℤ) (s : CState) (w : World) :
    Except Err Unit × CState × World :=
  apply_preset env none (set_power power s) w

/-- `set_auto_mode`. -/
def set_auto_mode (s : CState) (w : World) : Except Err Unit × CState × World :=
  stepUnit (Client.set_auto_mode w)
    (fun s => { s with is_auto_mode := true, mode := Mode.AUTO }) s

/-- `set_off_mode`. -/
def set_off_mode (s : CState) (w : World) : Except Err Unit × CState × World :=
  stepUnit (Client.set_off_mode w)
    (fun s => { s with is_auto_mode := false, mode := Mode.OFF }) s

/-- `set_demo_mode`. -/
def set_demo_mode (s : CState) (w : World) : Except Err Unit × CState × World :=
  stepUnit (Client.set_demo_mode w)
    (fun s => { s with is_auto_mode := false, mode := Mode.DEMO }) s

/-- `set_mode`: dispatch on the enumerated mode (with `Mode` an enumeration
the `Unsupported mode` branch of the source is unrepresentable). -/
def set_mode (env : Env) (mode : Mode) (s : CState) (w : World) :
    Except Err Unit × CState × World :=
  match mode with
  | Mode.AUTO => set_auto_mode s w
  | Mode.OFF => set_off_mode s w
  | Mode.DEMO => set_demo_mode s w
  | Mode.MANUAL => apply_preset env none s w

/-- `set_channel_pwm`: the client validates the channel; on success the
controller records manual mode. -/
def set_channel_pwm (channel : ℤ) (value : ℚ) (s : CState) (w : World) :
    Except Err Unit × CState × World :=
  stepUnit (Client.set_channel_pwm channel value w)
    (fun s => { s with mode := Mode.MANUAL, is_auto_mode := false }) s

/-- `set_all_channels`. -/
def set_all_channels (ch0 ch1 ch2 ch3 : ℚ) (color_code : ℤ) (intensity : ℚ)
    (s : CState) (w : World) : Except Err Unit × CState × World :=
  stepUnit (Client.set_all_channels ch0 ch1 ch2 ch3 color_code intensity w)
    (fun s => { s with mode := Mode.MANUAL, is_auto_mode := false }) s

/-- `set_pwm_frequency` (pure pass-through). -/
def set_pwm_frequency (hz : ℤ) (s : CState) (w : World) : Except Err Unit × CState × World :=
  stepUnit (Client.set_pwm_frequency hz w) id s

/-- `init_pwm` (pass-through). -/
def init_pwm (s : CState) (w : World) : Except Err Unit × CState × World :=
  stepUnit (Client.init_pwm w) id s

/-- `rtc_sync` (pass-through). -/
def rtc_sync (s : CState) (w : World) : Except Err Unit × CState × World :=
  stepUnit (Client.rtc_sync w) id s

/-- `set_timezone` (pass-through). -/
def set_timezone (value : String) (s : CState) (w : World) : Except Err Unit × CState × World :=
  stepUnit (Client.set_timezone value w) id s

/-- `clear_schedule` (pass-through). -/
def clear_schedule (s : CState) (w : World) : Except Err Unit × CState × World :=
  stepUnit (Client.clear_schedule w) id s

/-- `save_schedule` (pass-through). -/
def save_schedule (s : CState) (w : World) : Except Err Unit × CState × World :=
  stepUnit (Client.save_schedule w) id s

/-- `start_old_schedule_transfer` (pass-through). -/
def start_old_schedule_transfer (count : ℤ) (s : CState) (w : World) :
    Except Err Unit × CState × World :=
  stepUnit (Client.start_old_schedule_transfer count w) id s

/-- `old_schedule_payload` (pass-through). -/
def old_schedule_payload (payload : String) (s : CState) (w : World) :
    Except Err Unit × CState × World :=
  stepUnit (Client.old_schedule_payload payload w) id s

/-- `start_safe_schedule_transfer` (pass-through). -/
def start_safe_schedule_transfer (count : ℤ) (s : CState) (w : World) :
    Except Err Unit × CState × World :=
  stepUnit (Client.start_safe_schedule_transfer count w) id s

/-- `safe_schedule_payload` (pass-through). -/
def safe_schedule_payload (payload : String) (s : CState) (w : World) :
    Except Err Unit × CState × World :=
  stepUnit (Client.safe_schedule_payload payload w) id s

/-- `start_new_schedule`: on success the device follows the fresh schedule,
so mode becomes AUTO and the auto-flag true. -/
def start_new_schedule (s : CState) (w : World) : Except Err Unit × CState × World :=
  stepUnit (Client.start_new_schedule w)
    (fun s => { s with mode := Mode.AUTO, is_auto_mode := true }) s

/-- `add_clone_mac` (pass-through). -/
def add_clone_mac (mac_no_sep : String) (s : CState) (w : World) :
    Except Err Unit × CState × World :=
  stepUnit (Client.add_clone_mac mac_no_sep w) id s

/-- `remove_clone_mac` (pass-through). -/
def remove_clone_mac (mac_no_sep : String) (s : CState) (w : World) :
    Except Err Unit × CState × World :=
  stepUnit (Client.remove_clone_mac mac_no_sep w) id s

/-- `clear_master_and_clone` (pass-through). -/
def clear_master_and_clone (s : CState) (w : World) : Except Err Unit × CState × World :=
  stepUnit (Client.clear_master_and_clone w) id s

/-- `set_clone_mode` (pass-through). -/
def set_clone_mode (s : CState) (w : World) : Except Err Unit × CState × World :=
  stepUnit (Client.set_clone_mode w) id s

/-- `set_night_mode` (pass-through). -/
def set_night_mode (enabled : Bool) (s : CState) (w : World) :
    Except Err Unit × CState × World :=
  stepUnit (Client.set_night_mode enabled w) id s

/-- `manual_mode_1h`: on success mode MANUAL, auto-flag false. -/
def manual_mode_1h (s : CState) (w : World) : Except Err Unit × CState × World :=
  stepUnit (Client.manual_mode_1h w)
    (fun s => { s with mode := Mode.MANUAL, is_auto_mode := false }) s

/-- `manual_mode_default`: on success mode MANUAL, auto-flag false. -/
def manual_mode_default (s : CState) (w : World) : Except Err Unit × CState × World :=
  stepUnit (Client.manual_mode_default w)
    (fun s => { s with mode := Mode.MANUAL, is_auto_mode := false }) s

/-- `send_raw` (controller): store the stripped body (or `""` for a falsy
body) and return the raw body. -/
def send_raw (params ctrl : Option String) (s : CState) (w : World) :
    Except Err String × CState × World :=
  match Client.send_raw params ctrl w with
  | (Except.ok r, w') =>
    (Except.ok r,
     { s with last_raw_response := some (if r ≠ "" then pyStrip r else "") }, w')
  | (Except.error e, w') => (Except.error e, s, w')

/-- `get_pwm_frequency` (controller read). -/
def get_pwm_frequency (s : CState) (w : World) : Except Err String × CState × World :=
  stepRead (Client.get_pwm_frequency w) s

/-- `read_description` (controller read). -/
def read_description (s : CState) (w : World) : Except Err String × CState × World :=
  stepRead (Client.read_description w) s

/-- `read_led_status` (controller read). -/
def read_led_status (s : CState) (w : World) : Except Err String × CState × World :=
  stepRead (Client.read_led_status w) s

/-- `read_schedule_status` (controller read). -/
def read_schedule_status (s : CState) (w : World) : Except Err String × CState × World :=
  stepRead (Client.read_schedule_status w) s

/-- `read_schedule_string` (controller read). -/
def read_schedule_string (s : CState) (w : World) : Except Err String × CState × World :=
  stepRead (Client.read_schedule_string w) s

/-- `read_status_g8` (controller read). -/
def read_status_g8 (s : CState) (w : World) : Except Err String × CState × World :=
  stepRead (Client.read_status_g8 w) s

/-- `refresh_diagnostics`: rate-limited by the monotonic clock (under 1
second since the last successful refresh it returns at once with no network
call); otherwise fetch and store firmware version, fetch and parse the
status page, copy a present device schedule-enabled report into the
auto-flag (forcing mode to AUTO only when the flag becomes true), and stamp
the time.  The `asyncio.Lock` only matters under concurrency, which is not
modelled. -/
def refresh_diagnostics (s : CState) (w : World) : Except Err Unit × CState × World :=
  let (now, w₁) := readMonotonic w
  if now - s.last_refresh_monotonic < 1 then (Except.ok (), s, w₁)
  else
    match Client.get_firmware_version w₁ with
    | (Except.error e, w₂) => (Except.error e, s, w₂)
    | (Except.ok fw, w₂) =>
      let s₁ := { s with firmware_version := some fw }
      match Client.get_status_page w₂ with
      | (Except.error e, w₃) => (Except.error e, s₁, w₃)
      | (Except.ok raw, w₃) =>
        let st := parse_status_page raw
        let s₂ := { s₁ with status := some st }
        let s₃ :=
          match st.schedule_enabled with
          | none => s₂
          | some b => { s₂ with is_auto_mode := b, mode := if b then Mode.AUTO else s₂.mode }
        let (t₂, w₄) := readMonotonic w₃
        (Except.ok (), { s₃ with last_refresh_monotonic := t₂ }, w₄)

end Ctl

/-! ### The controller operations as one enumeration, for claims that
quantify over operations -/

/-- Every public `SkylightController` operation, with its arguments. -/
inductive COp where
  | set_power (power : ℤ)
  | set_power_and_apply (power : ℤ)
  | apply_preset (preset : Option String)
  | set_auto_mode
  | set_off_mode
  | set_demo_mode
  | set_mode (mode : Mode)
  | set_channel_pwm (channel : ℤ) (value : ℚ)
  | set_all_channels (ch0 ch1 ch2 ch3 : ℚ) (color_code : ℤ) (intensity : ℚ)
  | set_pwm_frequency (hz : ℤ)
  | init_pwm
  | rtc_sync
  | set_timezone (value : String)
  | clear_schedule
  | save_schedule
  | start_old_schedule_transfer (count : ℤ)
  | old_schedule_payload (payload : String)
  | start_safe_schedule_transfer (count : ℤ)
  | safe_schedule_payload (payload : String)
  | start_new_schedule
  | add_clone_mac (mac_no_sep : String)
  | remove_clone_mac (mac_no_sep : String)
  | clear_master_and_clone
  | set_clone_mode
  | set_night_mode (enabled : Bool)
  | manual_mode_1h
  | manual_mode_default
  | send_raw (params ctrl : Option String)
  | get_pwm_frequency
  | read_description
  | read_led_status
  | read_schedule_status
  | read_schedule_string
  | read_status_g8
  | refresh_diagnostics
deriving DecidableEq, Repr

/-- Forget a unit result. -/
def liftU (r : Except Err Unit × CState × World) : Except Err (Option String) × CState × World :=
  (r.1.map (fun _ => none), r.2.1, r.2.2)

/-- Keep a string result. -/
def liftS (r : Except Err String × CState × World) : Except Err (Option String) × CState × World :=
  (r.1.map some, r.2.1, r.2.2)

/-- Dispatch one controller operation (read operations yield `some` body). -/
def runCOp (op : COp) (env : Env) (s : CState) (w : World) :
    Except Err (Option String) × CState × World :=
  match op with
  | COp.set_power p => (Except.ok none, Ctl.set_power p s, w)
  | COp.set_power_and_apply p => liftU (Ctl.set_power_and_apply env p s w)
  | COp.apply_preset p => liftU (Ctl.apply_preset env p s w)
  | COp.set_auto_mode => liftU (Ctl.set_auto_mode s w)
  | COp.set_off_mode => liftU (Ctl.set_off_mode s w)
  | COp.set_demo_mode => liftU (Ctl.set_demo_mode s w)
  | COp.set_mode m => liftU (Ctl.set_mode env m s w)
  | COp.set_channel_pwm c v => liftU (Ctl.set_channel_pwm c v s w)
  | COp.set_all_channels a b c d cc i => liftU (Ctl.set_all_channels a b c d cc i s w)
  | COp.set_pwm_frequency hz => liftU (Ctl.set_pwm_frequency hz s w)
  | COp.init_pwm => liftU (Ctl.init_pwm s w)
  | COp.rtc_sync => liftU (Ctl.rtc_sync s w)
  | COp.set_timezone v => liftU (Ctl.set_timezone v s w)
  | COp.clear_schedule => liftU (Ctl.clear_schedule s w)
  | COp.save_schedule => liftU (Ctl.save_schedule s w)
  | COp.start_old_schedule_transfer n => liftU (Ctl.start_old_schedule_transfer n s w)
  | COp.old_schedule_payload p => liftU (Ctl.old_schedule_payload p s w)
  | COp.start_safe_schedule_transfer n => liftU (Ctl.start_safe_schedule_transfer n s w)
  | COp.safe_schedule_payload p => liftU (Ctl.safe_schedule_payload p s w)
  | COp.start_new_schedule => liftU (Ctl.start_new_schedule s w)
  | COp.add_clone_mac m => liftU (Ctl.add_clone_mac m s w)
  | COp.remove_clone_mac m => liftU (Ctl.remove_clone_mac m s w)
  | COp.clear_master_and_clone => liftU (Ctl.clear_master_and_clone s w)
  | COp.set_clone_mode => liftU (Ctl.set_clone_mode s w)
  | COp.set_night_mode b => liftU (Ctl.set_night_mode b s w)
  | COp.manual_mode_1h => liftU (Ctl.manual_mode_1h s w)
  | COp.manual_mode_default => liftU (Ctl.manual_mode_default s w)
  | COp.send_raw p c => liftS (Ctl.send_raw p c s w)
  | COp.get_pwm_frequency => liftS (Ctl.get_pwm_frequency s w)
  | COp.read_description => liftS (Ctl.read_description s w)
  | COp.read_led_status => liftS (Ctl.read_led_status s w)
  | COp.read_schedule_status => liftS (Ctl.read_schedule_status s w)
  | COp.read_schedule_string => liftS (Ctl.read_schedule_string s w)
  | COp.read_status_g8 => liftS (Ctl.read_status_g8 s w)
  | COp.refresh_diagnostics => liftU (Ctl.refresh_diagnostics s w)

/-- The pure pass-through operations of claim C10. -/
def isPassOp : COp → Bool
  | COp.set_pwm_frequency _ | COp.init_pwm | COp.rtc_sync | COp.set_timezone _
  | COp.clear_schedule | COp.save_schedule | COp.start_old_schedule_transfer _
  | COp.old_schedule_payload _ | COp.start_safe_schedule_transfer _
  | COp.safe_schedule_payload _ | COp.add_clone_mac _ | COp.remove_clone_mac _
  | COp.clear_master_and_clone | COp.set_clone_mode | COp.set_night_mode _ => true
  | _ => false

/-- The read operations of claim C10. -/
def isReadOp : COp → Bool
  | COp.get_pwm_frequency | COp.read_description | COp.read_led_status
  | COp.read_schedule_status | COp.read_schedule_string | COp.read_status_g8 => true
  | _ => false

/-- The mode-changing command operations of claim C1 (refresh excluded). -/
def isModeOp : COp → Bool
  | COp.apply_preset _ | COp.set_auto_mode | COp.set_off_mode | COp.set_demo_mode
  | COp.set_channel_pwm _ _ | COp.set_all_channels _ _ _ _ _ _
  | COp.start_new_schedule | COp.manual_mode_1h | COp.manual_mode_default => true
  | _ => false

/-- Operations that mutate controller state before their first network
call (the exceptions of amended claim C2). -/
def mutatesBeforeNet : COp → Bool
  | COp.refresh_diagnostics | COp.set_power_and_apply _ => true
  | _ => false

/-! ### Helper lemmas on the stepping combinators -/

theorem stepUnit_id_state (res : Except Err Unit × World) (s : CState) :
    (Ctl.stepUnit res id s).2.1 = s := by
  obtain ⟨r, w'⟩ := res
  cases r <;> rfl

theorem stepUnit_err_state (res : Except Err Unit × World) (f : CState → CState)
    (s : CState) (e : Err) (h : (Ctl.stepUnit res f s).1 = Except.error e) :
    (Ctl.stepUnit res f s).2.1 = s := by
  obtain ⟨r, w'⟩ := res
  cases r with
  | ok u => simp [Ctl.stepUnit] at h
  | error e' => rfl

theorem stepUnit_ok_state (res : Except Err Unit × World) (f : CState → CState)
    (s : CState) (h : (Ctl.stepUnit res f s).1 = Except.ok ()) :
    (Ctl.stepUnit res f s).2.1 = f s := by
  obtain ⟨r, w'⟩ := res
  cases r with
  | ok u => rfl
  | error e' => simp [Ctl.stepUnit] at h

theorem stepRead_ok_state (res : Except Err String × World) (s : CState) (r : String)
    (h : (Ctl.stepRead res s).1 = Except.ok r) :
    (Ctl.stepRead res s).2.1 = { s with last_raw_response := some r } := by
  obtain ⟨r', w'⟩ := res
  cases r' with
  | ok a =>
    simp [Ctl.stepRead] at h
    simp [Ctl.stepRead, h]
  | error e' => simp [Ctl.stepRead] at h

theorem stepRead_err_state (res : Except Err String × World) (s : CState) (e : Err)
    (h : (Ctl.stepRead res s).1 = Except.error e) :
    (Ctl.stepRead res s).2.1 = s := by
  obtain ⟨r', w'⟩ := res
  cases r' with
  | ok a => simp [Ctl.stepRead] at h
  | error e' => rfl

theorem liftU_state (r : Except Err Unit × CState × World) : (liftU r).2.1 = r.2.1 := rfl

theorem liftS_state (r : Except Err String × CState × World) : (liftS r).2.1 = r.2.1 := rfl

theorem liftS_stepRead_frame (res : Except Err String × World) (s : CState) (r : String)
    (h : (liftS (Ctl.stepRead res s)).1 = Except.ok (some r)) :
    (liftS (Ctl.stepRead res s)).2.1 = { s with last_raw_response := some r } := by
  obtain ⟨r', w'⟩ := res
  cases r' with
  | ok a =>
    have ha : a = r := by simpa [liftS, Ctl.stepRead, Except.map] using h
    subst ha
    rfl
  | error e' => exact absurd h (by simp [liftS, Ctl.stepRead, Except.map])

/-! ### Claim theorems -/

/-- C10: a successful call to any pass-through controller operation
(`set_pwm_frequency`, `init_pwm`, `rtc_sync`, `set_timezone`,
`clear_schedule`, `save_schedule`, `start_old_schedule_transfer`,
`old_schedule_payload`, `start_safe_schedule_transfer`,
`safe_schedule_payload`, `add_clone_mac`, `remove_clone_mac`,
`clear_master_and_clone`, `set_clone_mode`, `set_night_mode`) leaves every
field of the controller state unchanged (shown here for every outcome, not
only successful ones), and the read operations (`get_pwm_frequency`,
`read_description`, `read_led_status`, `read_schedule_status`,
`read_schedule_string`, `read_status_g8`) change only
`last_raw_response`, setting it to the returned body. -/
theorem c10_frame_conditions :
    (∀ (op : COp) (env : Env) (s : CState) (w : World), isPassOp op = true →
      (runCOp op env s w).2.1 = s) ∧
    (∀ (op : COp) (env : Env) (s : CState) (w : World) (r : String), isReadOp op = true →
      (runCOp op env s w).1 = Except.ok (some r) →
      (runCOp op env s w).2.1 = { s with last_raw_response := some r }) := by
  constructor
  · intro op env s w h
    cases op <;> simp only [isPassOp, Bool.false_eq_true] at h <;>
      simp only [runCOp, liftU_state, Ctl.set_pwm_frequency, Ctl.init_pwm, Ctl.rtc_sync,
        Ctl.set_timezone, Ctl.clear_schedule, Ctl.save_schedule,
        Ctl.start_old_schedule_transfer, Ctl.old_schedule_payload,
        Ctl.start_safe_schedule_transfer, Ctl.safe_schedule_payload, Ctl.add_clone_mac,
        Ctl.remove_clone_mac, Ctl.clear_master_and_clone, Ctl.set_clone_mode,
        Ctl.set_night_mode, stepUnit_id_state]
  · intro op env s w r h hok
    cases op <;> simp only [isReadOp, Bool.false_eq_true] at h <;>
      exact liftS_stepRead_frame _ _ _ hok

/-- C10 witness: the frame condition evaluated at a concrete pass-through
call (`rtc_sync`) and a concrete read call (`read_description`). -/
theorem c10_frame_conditions_witness :
    (runCOp COp.rtc_sync ⟨fun _ => none⟩
      ⟨"A1", 100, none, none, false, Mode.OFF, none, 0⟩ ⟨[Except.ok "ok"], [], []⟩).2.1 =
      ⟨"A1", 100, none, none, false, Mode.OFF, none, 0⟩ ∧
    (runCOp COp.read_description ⟨fun _ => none⟩
      ⟨"A1", 100, none, none, false, Mode.OFF, none, 0⟩ ⟨[Except.ok " d "], [], []⟩).2.1 =
      ⟨"A1", 100, none, none, false, Mode.OFF, some "d", 0⟩ := by
  constructor
  · exact c10_frame_conditions.1 COp.rtc_sync ⟨fun _ => none⟩
      ⟨"A1", 100, none, none, false, Mode.OFF, none, 0⟩ ⟨[Except.ok "ok"], [], []⟩ rfl
  · exact c10_frame_conditions.2 COp.read_description ⟨fun _ => none⟩
      ⟨"A1", 100, none, none, false, Mode.OFF, none, 0⟩ ⟨[Except.ok " d "], [], []⟩ "d"
      rfl rfl

/-- C7: the firmware-version read requests `params=n1` first; exactly when
that fails it issues exactly one fallback request `params=n`; a fallback
failure (with its cause) is what surfaces; a success of either request
returns the body stripped of surrounding whitespace. -/
theorem c7_firmware_fallback :
    (∀ (w : World) (b : String) (rest : List (Except String String)),
      w.pending = Except.ok b :: rest →
      Client.get_firmware_version w =
        (Except.ok (pyStrip b),
         { pending := rest, clock := w.clock,
           log := w.log ++ [⟨Url.scheduleSettings, some (QKey.params, "n1")⟩] })) ∧
    (∀ (w : World) (e₁ b : String) (rest : List (Except String String)),
      w.pending = Except.error e₁ :: Except.ok b :: rest →
      Client.get_firmware_version w =
        (Except.ok (pyStrip b),
         { pending := rest, clock := w.clock,
           log := w.log ++ [⟨Url.scheduleSettings, some (QKey.params, "n1")⟩,
             ⟨Url.scheduleSettings, some (QKey.params, "n")⟩] })) ∧
    (∀ (w : World) (e₁ e₂ : String) (rest : List (Except String String)),
      w.pending = Except.error e₁ :: Except.error e₂ :: rest →
      Client.get_firmware_version w =
        (Except.error (Err.unreachable e₂),
         { pending := rest, clock := w.clock,
           log := w.log ++ [⟨Url.scheduleSettings, some (QKey.params, "n1")⟩,
             ⟨Url.scheduleSettings, some (QKey.params, "n")⟩] })) := by
  refine ⟨?_, ?_, ?_⟩
  · intro w b rest h
    obtain ⟨p, cl, lg⟩ := w
    simp only at h
    subst h
    simp [Client.get_firmware_version, httpGet]
  · intro w e₁ b rest h
    obtain ⟨p, cl, lg⟩ := w
    simp only at h
    subst h
    simp [Client.get_firmware_version, httpGet]
  · intro w e₁ e₂ rest h
    obtain ⟨p, cl, lg⟩ := w
    simp only at h
    subst h
    simp [Client.get_firmware_version, httpGet]

/-- C7 witness: the three trace shapes at concrete inputs: an immediate
success (one request, stripped body), a fallback success (two requests),
and a double failure surfacing the second cause. -/
theorem c7_firmware_fallback_witness :
    Client.get_firmware_version ⟨[Except.ok " 1.2 "], [], []⟩ =
      (Except.ok "1.2",
       ⟨[], [], [⟨Url.scheduleSettings, some (QKey.params, "n1")⟩]⟩) ∧
    Client.get_firmware_version ⟨[Except.error "t1", Except.ok "2.0"], [], []⟩ =
      (Except.ok "2.0",
       ⟨[], [], [⟨Url.scheduleSettings, some (QKey.params, "n1")⟩,
         ⟨Url.scheduleSettings, some (QKey.params, "n")⟩]⟩) ∧
    Client.get_firmware_version ⟨[Except.error "t1", Except.error "t2"], [], []⟩ =
      (Except.error (Err.unreachable "t2"),
       ⟨[], [], [⟨Url.scheduleSettings, some (QKey.params, "n1")⟩,
         ⟨Url.scheduleSettings, some (QKey.params, "n")⟩]⟩) := by
  refine ⟨?_, ?_, ?_⟩
  · have h := c7_firmware_fallback.1 ⟨[Except.ok " 1.2 "], [], []⟩ " 1.2 " [] rfl
    simpa using h
  · have h := c7_firmware_fallback.2.1 ⟨[Except.error "t1", Except.ok "2.0"], [], []⟩
      "t1" "2.0" [] rfl
    simpa using h
  · have h := c7_firmware_fallback.2.2 ⟨[Except.error "t1", Except.error "t2"], [], []⟩
      "t1" "t2" [] rfl
    simpa using h

/-- C9 counterexample: the claim reads "supplied" as passing a value at
all, but the source tests Python truthiness (`bool(params) == bool(ctrl)`).
Supplying exactly one value that is the empty string raises InvalidArgument
with no network call, and supplying both values with one of them empty
performs a GET instead of raising. -/
theorem c9_supplied_vs_truthy_counterexample :
    Client.send_raw (some "") none ⟨[Except.ok "body"], [], []⟩ =
      (Except.error (Err.invalidArg "Provide exactly one of params or ctrl"),
       ⟨[Except.ok "body"], [], []⟩) ∧
    Client.send_raw (some "x") (some "") ⟨[Except.ok "body"], [], []⟩ =
      (Except.ok "body",
       ⟨[], [], [⟨Url.scheduleSettings, some (QKey.params, "x")⟩]⟩) := by
  exact ⟨rfl, rfl⟩

/-- C9 amended: with "supplied" meaning supplied non-empty (Python
truthiness, under which an empty string counts as absent): when the
`params` and `ctrl` arguments are both truthy or both falsy, `send_raw`
raises InvalidArgument and performs no network call; when exactly one is
truthy it performs exactly one GET under that key and returns the response
body. -/
theorem c9_send_raw_amended :
    ∀ (params ctrl : Option String) (w : World),
      (Client.pyTruthy params = Client.pyTruthy ctrl →
        Client.send_raw params ctrl w =
          (Except.error (Err.invalidArg "Provide exactly one of params or ctrl"), w)) ∧
      (Client.pyTruthy params = true → Client.pyTruthy ctrl = false →
        (Client.send_raw params ctrl w).2.log =
          w.log ++ [⟨Url.scheduleSettings, some (QKey.params, params.getD "")⟩] ∧
        ∀ (b : String) (rest : List (Except String String)),
          w.pending = Except.ok b :: rest → (Client.send_raw params ctrl w).1 = Except.ok b) ∧
      (Client.pyTruthy params = false → Client.pyTruthy ctrl = true →
        (Client.send_raw params ctrl w).2.log =
          w.log ++ [⟨Url.scheduleSettings, some (QKey.ctrl, ctrl.getD "")⟩] ∧
        ∀ (b : String) (rest : List (Except String String)),
          w.pending = Except.ok b :: rest → (Client.send_raw params ctrl w).1 = Except.ok b) := by
  intro params ctrl w
  refine ⟨?_, ?_, ?_⟩
  · intro h
    simp [Client.send_raw, h]
  · intro hp hc
    constructor
    · obtain ⟨p, cl, lg⟩ := w
      cases p with
      | nil => simp [Client.send_raw, hp, hc, httpGet]
      | cons hd tl => cases hd <;> simp [Client.send_raw, hp, hc, httpGet]
    · intro b rest hw
      obtain ⟨p, cl, lg⟩ := w
      simp only at hw
      subst hw
      simp [Client.send_raw, hp, hc, httpGet]
  · intro hp hc
    constructor
    · obtain ⟨p, cl, lg⟩ := w
      cases p with
      | nil => simp [Client.send_raw, hp, hc, httpGet]
      | cons hd tl => cases hd <;> simp [Client.send_raw, hp, hc, httpGet]
    · intro b rest hw
      obtain ⟨p, cl, lg⟩ := w
      simp only at hw
      subst hw
      simp [Client.send_raw, hp, hc, httpGet]

/-- C9 witness: the amended behaviour at concrete inputs: both falsy
raises; a truthy `params` alone performs the one GET and returns the
body. -/
theorem c9_send_raw_amended_witness :
    Client.send_raw none none ⟨[], [], []⟩ =
      (Except.error (Err.invalidArg "Provide exactly one of params or ctrl"), ⟨[], [], []⟩) ∧
    (Client.send_raw (some "n1") none ⟨[Except.ok "v2"], [], []⟩).2.log =
      [⟨Url.scheduleSettings, some (QKey.params, "n1")⟩] ∧
    (Client.send_raw (some "n1") none ⟨[Except.ok "v2"], [], []⟩).1 = Except.ok "v2" := by
  refine ⟨?_, ?_, ?_⟩
  · exact (c9_send_raw_amended none none ⟨[], [], []⟩).1 rfl
  · exact ((c9_send_raw_amended (some "n1") none ⟨[Except.ok "v2"], [], []⟩).2.1 rfl rfl).1
  · exact ((c9_send_raw_amended (some "n1") none ⟨[Except.ok "v2"], [], []⟩).2.1 rfl rfl).2
      "v2" [] rfl

/-! ### Lemmas about stripping, for claim C8 -/

theorem dropWhile_head?_not (p : Char → Bool) (l : List Char) (a : Char)
    (h : (l.dropWhile p).head? = some a) : p a = false := by
  induction l with
  | nil => simp [List.dropWhile] at h
  | cons c t ih =>
    by_cases hc : p c
    · rw [List.dropWhile_cons_of_pos hc] at h
      exact ih h
    · rw [List.dropWhile_cons_of_neg hc] at h
      simp only [List.head?_cons, Option.some.injEq] at h
      subst h
      simpa using hc

theorem dropWhile_getLast?_of_ne_nil (p : Char → Bool) (l : List Char)
    (h : l.dropWhile p ≠ []) : (l.dropWhile p).getLast? = l.getLast? := by
  induction l with
  | nil => simp [List.dropWhile] at h
  | cons c t ih =>
    by_cases hc : p c
    · rw [List.dropWhile_cons_of_pos hc] at h ⊢
      have ht : t ≠ [] := by
        intro he
        subst he
        simp [List.dropWhile] at h
      obtain ⟨d, t', rfl⟩ := List.exists_cons_of_ne_nil ht
      simpa using ih h
    · rw [List.dropWhile_cons_of_neg hc]

/-- Characterization of stripping a character from both ends: the input
splits as an all-NUL prefix, the result, and an all-NUL tail, and the
result has no NUL at either end. -/
theorem stripNulBoth_spec (l : List Char) :
    ∃ pre post, l = pre ++ stripNulBoth l ++ post ∧
      (∀ c ∈ pre, c = '\x00') ∧ (∀ c ∈ post, c = '\x00') ∧
      (stripNulBoth l).head? ≠ some '\x00' ∧ (stripNulBoth l).getLast? ≠ some '\x00' := by
  set p : Char → Bool := fun c => c = '\x00' with hp
  set l₁ := l.dropWhile p with hl₁
  set l₂ := l₁.reverse.dropWhile p with hl₂
  have hstrip : stripNulBoth l = l₂.reverse := rfl
  refine ⟨l.takeWhile p, (l₁.reverse.takeWhile p).reverse, ?_, ?_, ?_, ?_, ?_⟩
  · rw [hstrip]
    have h₁ : l.takeWhile p ++ l₁ = l := List.takeWhile_append_dropWhile p l
    have h₂ : l₁.reverse.takeWhile p ++ l₂ = l₁.reverse :=
      List.takeWhile_append_dropWhile p l₁.reverse
    have h₃ : l₁ = l₂.reverse ++ (l₁.reverse.takeWhile p).reverse := by
      have := congrArg List.reverse h₂
      simpa [List.reverse_append] using this.symm
    calc l = l.takeWhile p ++ l₁ := h₁.symm
      _ = l.takeWhile p ++ (l₂.reverse ++ (l₁.reverse.takeWhile p).reverse) := by rw [← h₃]
      _ = l.takeWhile p ++ l₂.reverse ++ (l₁.reverse.takeWhile p).reverse := by
          rw [List.append_assoc]
  · intro c hc
    have := List.mem_takeWhile_imp hc
    simpa [hp] using this
  · intro c hc
    rw [List.mem_reverse] at hc
    have := List.mem_takeWhile_imp hc
    simpa [hp] using this
  · rw [hstrip]
    intro h
    rw [List.head?_reverse] at h
    by_cases hnil : l₂ = []
    · simp [hnil] at h
    · rw [hl₂, dropWhile_getLast?_of_ne_nil p l₁.reverse (hl₂ ▸ hnil),
        List.getLast?_reverse] at h
      have := dropWhile_head?_not p l '\x00' (hl₁ ▸ h)
      simp [hp] at this
  · rw [hstrip]
    intro h
    rw [List.getLast?_reverse] at h
    have := dropWhile_head?_not p l₁.reverse '\x00' (hl₂ ▸ h)
    simp [hp] at this

/-- The claim's own wording of the hex decode rule, which strips a NUL only
from the trailing end of the decoded text (stated for comparison with the
source's `decode_hex_text`, which strips both ends). -/
def decode_hex_text_spec (value : String) : Option String :=
  if value = "" then none
  else if value.length % 2 ≠ 0 then some value
  else
    match bytesFromHex? value.data with
    | some bs =>
      some (String.mk (((asciiDecodeIgnore bs).reverse.dropWhile (· = '\x00')).reverse))
    | none => some value

/-- C8 counterexample: on the even-length hex token `"0041"` (bytes NUL,
`A`) the source decodes to `"A"`, stripping the leading NUL as well,
whereas the claim's trailing-only rule yields `"\x00A"`; the claim as
stated is therefore false on this token. -/
theorem c8_leading_nul_counterexample :
    decode_hex_text "0041" = some "A" ∧
    decode_hex_text_spec "0041" = some "\x00A" ∧
    decode_hex_text "0041" ≠ decode_hex_text_spec "0041" := by
  decide

/-- C8 amended: for every name/model token: an empty token leaves the field
unset; an odd-length token passes through unmodified; an even-length token
whose hex decoding throws passes through unmodified; an even-length valid
hex token is decoded as ASCII ignoring invalid bytes and NUL characters are
stripped from both the leading and the trailing end (the amendment: the
source's `.strip("\x00")` strips both ends, not only the trailing one). -/
theorem c8_hex_decode_amended :
    ∀ value : String,
      (value = "" → decode_hex_text value = none) ∧
      (value ≠ "" → value.length % 2 = 1 → decode_hex_text value = some value) ∧
      (value ≠ "" → value.length % 2 = 0 → bytesFromHex? value.data = none →
        decode_hex_text value = some value) ∧
      (∀ bs, value ≠ "" → value.length % 2 = 0 → bytesFromHex? value.data = some bs →
        ∃ t pre post, decode_hex_text value = some (String.mk t) ∧
          asciiDecodeIgnore bs = pre ++ t ++ post ∧
          (∀ c ∈ pre, c = '\x00') ∧ (∀ c ∈ post, c = '\x00') ∧
          t.head? ≠ some '\x00' ∧ t.getLast? ≠ some '\x00') := by
  intro value
  refine ⟨?_, ?_, ?_, ?_⟩
  · intro h
    simp [decode_hex_text, h]
  · intro hne hodd
    simp [decode_hex_text, hne, hodd]
  · intro hne heven hhex
    simp [decode_hex_text, hne, heven, hhex]
  · intro bs hne heven hhex
    obtain ⟨pre, post, hsplit, hpre, hpost, hhead, hlast⟩ :=
      stripNulBoth_spec (asciiDecodeIgnore bs)
    exact ⟨stripNulBoth (asciiDecodeIgnore bs), pre, post,
      by simp [decode_hex_text, hne, heven, hhex], hsplit, hpre, hpost, hhead, hlast⟩

/-- C8 witness: the amended rule at concrete tokens: `""` unset, odd-length
`"x"` passed through, invalid even-length hex `"xy"` passed through, and
`"0041"` decoded to `"A"` with its NUL split off the front. -/
theorem c8_hex_decode_amended_witness :
    decode_hex_text "" = none ∧
    decode_hex_text "x" = some "x" ∧
    decode_hex_text "xy" = some "xy" ∧
    decode_hex_text "0041" = some "A" := by
  refine ⟨(c8_hex_decode_amended "").1 rfl,
    (c8_hex_decode_amended "x").2.1 (by decide) (by decide),
    (c8_hex_decode_amended "xy").2.2.1 (by decide) (by decide) (by decide),
    by decide⟩

/-! ### Claim C3: the channel-set command encoding -/

/-- The rendering the claim describes: a shortest round-trippable decimal
rendering of the value, with no forced sign. -/
def shortestRoundTripRendering (v : ℚ) (s : String) : Prop :=
  pyFloat? s = some v ∧ (∀ t : String, pyFloat? t = some v → s.length ≤ t.length) ∧
  '+' ∉ s.data

/-- C3 counterexample: at channel 0 and value 2000000 the source sends
`ctrl=702e+06` — Python `%g` exponent notation with a forced `+` — whereas
any shortest round-trippable decimal rendering of 2000000 has no forced
sign, and `"2e6"` round-trips in fewer characters than `"2e+06"`; the
rendered value field is therefore not the claimed shortest rendering. -/
theorem c3_format_g_counterexample :
    Client.set_channel_pwm 0 2000000 ⟨[Except.ok ""], [], []⟩ =
      (Except.ok (), ⟨[], [], [⟨Url.scheduleSettings, some (QKey.ctrl, "702e+06")⟩]⟩) ∧
    ¬ shortestRoundTripRendering 2000000 "2e+06" := by
  constructor
  · rfl
  · intro h
    exact absurd (h.2.1 "2e6" (by decide)) (by decide)

/-- C3 amended: `set_channel_pwm` renders the value with Python's general
float format `%g` (6 significant digits, insignificant trailing zeros
removed, exponent notation outside the exponent range [-4, 6), modelled by
`formatG`) rather than a shortest round-trippable rendering — the two only
coincide for values of at most 6 significant digits in the non-exponent
range; for every channel in {0,1,2,3} it sends exactly one command under
the `ctrl` key whose string is `7{channel}{formatG value}`, and for every
channel outside {0,1,2,3} it raises InvalidArgument before any network
call. -/
theorem c3_set_channel_pwm_amended :
    ∀ (channel : ℤ) (value : ℚ) (w : World),
      (0 ≤ channel → channel ≤ 3 →
        (Client.set_channel_pwm channel value w).2.log =
          w.log ++ [⟨Url.scheduleSettings,
            some (QKey.ctrl, "7" ++ toString channel ++ formatG value)⟩] ∧
        (Client.set_channel_pwm channel value w).2.pending = w.pending.tail) ∧
      (channel < 0 ∨ 3 < channel →
        Client.set_channel_pwm channel value w =
          (Except.error (Err.invalidArg ("Invalid channel: " ++ toString channel)), w)) := by
  intro channel value w
  constructor
  · intro h0 h3
    have hn : ¬ (channel < 0 ∨ channel > 3) := by omega
    obtain ⟨p, cl, lg⟩ := w
    cases p with
    | nil => simp [Client.set_channel_pwm, hn, Client.send_ctrl, httpGet]
    | cons hd tl =>
      cases hd <;> simp [Client.set_channel_pwm, hn, Client.send_ctrl, httpGet]
  · intro h
    have hp : channel < 0 ∨ channel > 3 := by omega
    simp [Client.set_channel_pwm, hp]

/-- C3 witness: at channel 1 and value 50.5 exactly one `ctrl` request with
string `"7150.5"` is issued, and channel 4 raises InvalidArgument leaving
the world untouched. -/
theorem c3_set_channel_pwm_amended_witness :
    (Client.set_channel_pwm 1 (101 / 2) ⟨[Except.ok ""], [], []⟩).2.log =
      [⟨Url.scheduleSettings, some (QKey.ctrl, "7150.5")⟩] ∧
    Client.set_channel_pwm 4 (101 / 2) ⟨[Except.ok ""], [], []⟩ =
      (Except.error (Err.invalidArg "Invalid channel: 4"), ⟨[Except.ok ""], [], []⟩) := by
  constructor
  · have h := ((c3_set_channel_pwm_amended 1 (101 / 2) ⟨[Except.ok ""], [], []⟩).1
      (by decide) (by decide)).1
    rw [h]
    rfl
  · have h := (c3_set_channel_pwm_amended 4 (101 / 2) ⟨[Except.ok ""], [], []⟩).2
      (by omega)
    rw [h]
    rfl

/-! ### Claim C5: preset application and power substitution -/

theorem matchNumM_chars (cs : List Char) (h : matchNumM cs = true) :
    ∀ c ∈ cs, c.isDigit = true ∨ c = '.' ∨ c = 'm' := by
  intro c hc
  unfold matchNumM at h
  dsimp only at h
  rw [← List.takeWhile_append_dropWhile Char.isDigit cs] at hc
  split_ifs at h with h1 h2 h3
  · rw [h2] at hc
    rcases List.mem_append.mp hc with hd | hm
    · exact Or.inl (List.mem_takeWhile_imp hd)
    · simp at hm
      exact Or.inr (Or.inr hm)
  · simp only [Bool.and_eq_true, Bool.not_eq_true', List.isEmpty_eq_false_iff_exists_mem,
      decide_eq_true_eq] at h
    have hne : cs.dropWhile Char.isDigit ≠ [] := by
      intro hnil
      rw [hnil] at h3
      simp at h3
    obtain ⟨d, rest, hrest⟩ := List.exists_cons_of_ne_nil hne
    have hd : d = '.' := by
      rw [hrest] at h3
      simpa using h3
    rcases List.mem_append.mp hc with hds | hrest'
    · exact Or.inl (List.mem_takeWhile_imp hds)
    · rw [hrest, hd] at hrest'
      rcases List.mem_cons.mp hrest' with hdot | htail
      · exact Or.inr (Or.inl hdot)
      · rw [hrest] at h
        simp only [List.tail_cons] at h
        have hc2 : c ∈ List.takeWhile Char.isDigit rest ++ List.dropWhile Char.isDigit rest := by
          rw [List.takeWhile_append_dropWhile]
          exact htail
        rcases List.mem_append.mp hc2 with hds₂ | hm
        · exact Or.inl (List.mem_takeWhile_imp hds₂)
        · rw [h.2] at hm
          simp at hm
          exact Or.inr (Or.inr hm)

theorem powerSuffixMatch_head_no_l_tail (c : Char) (rest : List Char)
    (h : powerSuffixMatch (c :: rest) = true) :
    c = 'l' ∧ ∀ d ∈ rest, d ≠ 'l' := by
  unfold powerSuffixMatch at h
  simp only [Bool.and_eq_true, decide_eq_true_eq] at h
  obtain ⟨hc, hrest⟩ := h
  refine ⟨hc, ?_⟩
  intro d hd
  split_ifs at hrest with hdash
  · have hne : rest ≠ [] := by
      intro hnil
      rw [hnil] at hdash
      simp at hdash
    obtain ⟨r₀, rtail, hr⟩ := List.exists_cons_of_ne_nil hne
    have hr₀ : r₀ = '-' := by
      rw [hr] at hdash
      simpa using hdash
    rw [hr] at hd hrest
    simp only [List.tail_cons] at hrest
    rcases List.mem_cons.mp hd with h0 | htail
    · rw [h0, hr₀]
      decide
    · rcases matchNumM_chars rtail hrest d htail with hdig | hdot | hm
      · intro habs
        rw [habs] at hdig
        simp [Char.isDigit] at hdig
      · rw [hdot]; decide
      · rw [hm]; decide
  · rcases matchNumM_chars rest hrest d hd with hdig | hdot | hm
    · intro habs
      rw [habs] at hdig
      simp [Char.isDigit] at hdig
    · rw [hdot]; decide
    · rw [hm]; decide

theorem powerSubList_no_match (p : ℤ) (l : List Char)
    (h : ∀ i, powerSuffixMatch (l.drop i) = false) : powerSubList p l = l := by
  induction l with
  | nil => rfl
  | cons c t ih =>
    have h0 : powerSuffixMatch (c :: t) = false := h 0
    rw [powerSubList, h0]
    simp only [Bool.false_eq_true, if_false]
    rw [ih]
    intro i
    exact h (i + 1)

theorem powerSubList_append_match (p : ℤ) (pre suf : List Char)
    (h : powerSuffixMatch suf = true) :
    powerSubList p (pre ++ suf) = pre ++ ("l" ++ toString p ++ "m").data := by
  induction pre with
  | nil =>
    cases suf with
    | nil => simp [powerSuffixMatch] at h
    | cons c rest =>
      simp only [List.nil_append]
      rw [powerSubList, h]
      simp
  | cons c pre' ih =>
    have hsuf_ne : suf ≠ [] := by
      intro hnil
      rw [hnil] at h
      simp [powerSuffixMatch] at h
    obtain ⟨s₀, st, hs⟩ := List.exists_cons_of_ne_nil hsuf_ne
    have hs₀ : s₀ = 'l' := (powerSuffixMatch_head_no_l_tail s₀ st (hs ▸ h)).1
    have hfalse : powerSuffixMatch (c :: (pre' ++ suf)) = false := by
      by_contra hcontra
      rw [Bool.not_eq_false] at hcontra
      have hno_l := (powerSuffixMatch_head_no_l_tail c (pre' ++ suf) hcontra).2
      have hmem : 'l' ∈ pre' ++ suf := by
        apply List.mem_append.mpr
        right
        rw [hs, hs₀]
        exact List.mem_cons_self 'l' st
      exact hno_l 'l' hmem rfl
    rw [List.cons_append, powerSubList, hfalse]
    simp only [Bool.false_eq_true, if_false]
    rw [ih]
    rfl

/-- C5: `apply_preset` on a preset whose template ends with the pattern
`l`, optional minus, digits, optional dot-fraction, `m` substitutes that
trailing field with `l{power}m` using the controller's current power; a
template with no such suffix is sent verbatim; and after a successful run
the mode is MANUAL and the auto-mode flag false regardless of the prior
state.  The two network calls are manual-mode-enable (`params=9`) followed
by the substituted ctrl string. -/
theorem c5_apply_preset_power_substitution :
    ∀ (env : Env) (preset base : String) (s : CState) (w : World) (b₁ b₂ : String)
      (rest : List (Except String String)),
      preset ≠ "" → env.presets preset = some base →
      w.pending = Except.ok b₁ :: Except.ok b₂ :: rest →
      (Ctl.apply_preset env (some preset) s w).1 = Except.ok () ∧
      (Ctl.apply_preset env (some preset) s w).2.1.mode = Mode.MANUAL ∧
      (Ctl.apply_preset env (some preset) s w).2.1.is_auto_mode = false ∧
      (Ctl.apply_preset env (some preset) s w).2.1.selected_preset = preset ∧
      (Ctl.apply_preset env (some preset) s w).2.2.log =
        w.log ++ [⟨Url.scheduleSettings, some (QKey.params, "9")⟩,
          ⟨Url.scheduleSettings, some (QKey.ctrl, ctrl_with_power s.power base)⟩] ∧
      (∀ pre suf, base.data = pre ++ suf → powerSuffixMatch suf = true →
        ctrl_with_power s.power base =
          String.mk (pre ++ ("l" ++ toString s.power ++ "m").data)) ∧
      ((∀ i, powerSuffixMatch (base.data.drop i) = false) →
        ctrl_with_power s.power base = base) := by
  intro env preset base s w b₁ b₂ rest hpre hbase hpend
  have htruthy : Client.pyTruthy (some preset) = true := by
    simp [Client.pyTruthy, hpre]
  obtain ⟨p, cl, lg⟩ := w
  simp only at hpend
  subst hpend
  have hrun : Ctl.apply_preset env (some preset) s
      ⟨Except.ok b₁ :: Except.ok b₂ :: rest, cl, lg⟩ =
      (Except.ok (),
       { s with selected_preset := preset, is_auto_mode := false, mode := Mode.MANUAL },
       ⟨rest, cl, lg ++ [⟨Url.scheduleSettings, some (QKey.params, "9")⟩,
         ⟨Url.scheduleSettings, some (QKey.ctrl, ctrl_with_power s.power base)⟩]⟩) := by
    simp [Ctl.apply_preset, htruthy, hbase, Client.set_manual_mode, Client.send_params,
      Client.send_ctrl, httpGet, Except.map]
  refine ⟨?_, ?_, ?_, ?_, ?_, ?_, ?_⟩
  · rw [hrun]
  · rw [hrun]
  · rw [hrun]
  · rw [hrun]
  · rw [hrun]
  · intro pre suf hsplit hmatch
    unfold ctrl_with_power
    rw [hsplit, powerSubList_append_match s.power pre suf hmatch]
  · intro hnone
    unfold ctrl_with_power
    rw [powerSubList_no_match s.power base.data hnone]

/-- C5 witness: with power 75 and the template `"70h0i0j0k0l0m"` (ending in
`l0m`), a successful `apply_preset` from AUTO state sends
`ctrl=70h0i0j0k0l75m` after `params=9` and lands in MANUAL with the
auto-flag false; and a non-matching template `"abc"` is left verbatim by
the substitution. -/
theorem c5_apply_preset_power_substitution_witness :
    (Ctl.apply_preset ⟨fun n => if n = "A1" then some "70h0i0j0k0l0m" else none⟩
      (some "A1") ⟨"A1", 75, none, none, true, Mode.AUTO, none, 0⟩
      ⟨[Except.ok "", Except.ok ""], [], []⟩).1 = Except.ok () ∧
    (Ctl.apply_preset ⟨fun n => if n = "A1" then some "70h0i0j0k0l0m" else none⟩
      (some "A1") ⟨"A1", 75, none, none, true, Mode.AUTO, none, 0⟩
      ⟨[Except.ok "", Except.ok ""], [], []⟩).2.1.mode = Mode.MANUAL ∧
    (Ctl.apply_preset ⟨fun n => if n = "A1" then some "70h0i0j0k0l0m" else none⟩
      (some "A1") ⟨"A1", 75, none, none, true, Mode.AUTO, none, 0⟩
      ⟨[Except.ok "", Except.ok ""], [], []⟩).2.1.is_auto_mode = false ∧
    (Ctl.apply_preset ⟨fun n => if n = "A1" then some "70h0i0j0k0l0m" else none⟩
      (some "A1") ⟨"A1", 75, none, none, true, Mode.AUTO, none, 0⟩
      ⟨[Except.ok "", Except.ok ""], [], []⟩).2.2.log =
      [⟨Url.scheduleSettings, some (QKey.params, "9")⟩,
       ⟨Url.scheduleSettings, some (QKey.ctrl, "70h0i0j0k0l75m")⟩] ∧
    ctrl_with_power 75 "abc" = "abc" := by
  have h := c5_apply_preset_power_substitution
    ⟨fun n => if n = "A1" then some "70h0i0j0k0l0m" else none⟩ "A1" "70h0i0j0k0l0m"
    ⟨"A1", 75, none, none, true, Mode.AUTO, none, 0⟩
    ⟨[Except.ok "", Except.ok ""], [], []⟩ "" "" [] (by decide) (by simp) rfl
  refine ⟨h.1, h.2.1, h.2.2.1, ?_, ?_⟩
  · have hlog := h.2.2.2.2.1
    have hctrl : ctrl_with_power (75 : ℤ) "70h0i0j0k0l0m" = "70h0i0j0k0l75m" := by decide
    rw [hlog, hctrl]
    rfl
  · decide

/-! ### Claim C4: decoder totality and unset-field discipline -/

/-- Closed form of `parse_status_page`: every field is its own guarded
expression over the split lines. -/
theorem parse_status_page_eq (raw : String) :
    parse_status_page raw =
      (let lines := statusLines raw
      let p0 := pySplitTab (lines.getD 0 "")
      let p1 := pySplitTab (lines.getD 1 "")
      let p2 := pySplitTab (lines.getD 2 "")
      let p3 := pySplitTab (lines.getD 3 "")
      { name := if lines.length > 0 then
          (if p0.length > 0 then decode_hex_text (p0.getD 0 "") else none) else none
        model := if lines.length > 0 then
          (if p0.length > 1 then decode_hex_text (p0.getD 1 "") else none) else none
        mac := if lines.length > 0 then
          (if p0.length > 2 ∧ p0.getD 2 "" ≠ "" then some (p0.getD 2 "") else none) else none
        is_master := if lines.length > 0 then
          (if p0.length > 3 ∧ p0.getD 3 "" ≠ "" then some (p0.getD 3 "" = "1") else none)
          else none
        master_mac := if lines.length > 0 then
          (if p0.length > 4 ∧ p0.getD 4 "" ≠ "" then some (p0.getD 4 "") else none) else none
        clone_count := if lines.length > 0 then
          (if p0.length > 5 then to_int (p0.getD 5 "") else none) else none
        sntp_enabled := if lines.length > 1 then
          (if p1.length > 0 ∧ p1.getD 0 "" ≠ "" then some (p1.getD 0 "" = "1") else none)
          else none
        date := if lines.length > 1 then
          (if p1.length > 1 ∧ p1.getD 1 "" ≠ "" then some (p1.getD 1 "") else none) else none
        time := if lines.length > 1 then
          (if p1.length > 2 ∧ p1.getD 2 "" ≠ "" then some (p1.getD 2 "") else none) else none
        pwm_freq := if lines.length > 2 then
          (if p2.length > 0 then to_int (p2.getD 0 "") else none) else none
        pwm0 := if lines.length > 2 then
          (if p2.length > 1 then raw_pwm_to_percent (p2.getD 1 "") else none) else none
        pwm1 := if lines.length > 2 then
          (if p2.length > 2 then raw_pwm_to_percent (p2.getD 2 "") else none) else none
        pwm2 := if lines.length > 2 then
          (if p2.length > 3 then raw_pwm_to_percent (p2.getD 3 "") else none) else none
        pwm3 := if lines.length > 2 then
          (if p2.length > 4 then raw_pwm_to_percent (p2.getD 4 "") else none) else none
        manual_intensity := if lines.length > 2 then
          (if p2.length > 5 then to_float (p2.getD 5 "") else none) else none
        manual_color := if lines.length > 2 then
          (if p2.length > 6 then to_float (p2.getD 6 "") else none) else none
        calib_pwm := if lines.length > 2 then
          (if p2.length > 7 then to_int (p2.getD 7 "") else none) else none
        night_mode_enabled := if lines.length > 2 then
          (if p2.length > 8 ∧ p2.getD 8 "" ≠ "" then some (p2.getD 8 "" = "1") else none)
          else none
        schedule_enabled := if lines.length > 3 then
          (if p3.length > 0 ∧ p3.getD 0 "" ≠ "" then some (p3.getD 0 "" = "1") else none)
          else none
        schedule_items_count := if lines.length > 3 then
          (if p3.length > 1 then to_int (p3.getD 1 "") else none) else none
        schedule_active_item_idx := if lines.length > 3 then
          (if p3.length > 2 then to_int (p3.getD 2 "") else none) else none }) := by
  unfold parse_status_page
  dsimp only
  by_cases h0 : (statusLines raw).length > 0 <;>
    by_cases h1 : (statusLines raw).length > 1 <;>
      by_cases h2 : (statusLines raw).length > 2 <;>
        by_cases h3 : (statusLines raw).length > 3 <;>
          simp [h0, h1, h2, h3, applyLine0, applyLine1, applyLine2, applyLine3]

theorem ite_ite_none {c₁ c₂ : Prop} [Decidable c₁] [Decidable c₂] {α : Type}
    (x : Option α) (h : ¬ c₂) :
    (if c₁ then (if c₂ then x else none) else none) = none := by
  by_cases h₁ : c₁ <;> simp [h₁, h]

/-- C4: the status decoder is total (embedded as a pure total function): a
line beyond the available count, or a field beyond a line's tab-separated
tokens, leaves the corresponding output field unset, and on the empty
string every field of the result is unset. -/
theorem c4_decoder_unset_discipline :
    parse_status_page "" = {} ∧
    ∀ raw : String,
      ((statusLines raw).length = 0 → parse_status_page raw = {}) ∧
      ((statusLines raw).length ≤ 1 →
        (parse_status_page raw).sntp_enabled = none ∧ (parse_status_page raw).date = none ∧
        (parse_status_page raw).time = none) ∧
      ((statusLines raw).length ≤ 2 →
        (parse_status_page raw).pwm_freq = none ∧ (parse_status_page raw).pwm0 = none ∧
        (parse_status_page raw).pwm1 = none ∧ (parse_status_page raw).pwm2 = none ∧
        (parse_status_page raw).pwm3 = none ∧
        (parse_status_page raw).manual_intensity = none ∧
        (parse_status_page raw).manual_color = none ∧
        (parse_status_page raw).calib_pwm = none ∧
        (parse_status_page raw).night_mode_enabled = none) ∧
      ((statusLines raw).length ≤ 3 →
        (parse_status_page raw).schedule_enabled = none ∧
        (parse_status_page raw).schedule_items_count = none ∧
        (parse_status_page raw).schedule_active_item_idx = none) ∧
      ((pySplitTab ((statusLines raw).getD 0 "")).length ≤ 1 →
        (parse_status_page raw).model = none) ∧
      ((pySplitTab ((statusLines raw).getD 0 "")).length ≤ 2 →
        (parse_status_page raw).mac = none) ∧
      ((pySplitTab ((statusLines raw).getD 0 "")).length ≤ 3 →
        (parse_status_page raw).is_master = none) ∧
      ((pySplitTab ((statusLines raw).getD 0 "")).length ≤ 4 →
        (parse_status_page raw).master_mac = none) ∧
      ((pySplitTab ((statusLines raw).getD 0 "")).length ≤ 5 →
        (parse_status_page raw).clone_count = none) ∧
      ((pySplitTab ((statusLines raw).getD 1 "")).length ≤ 1 →
        (parse_status_page raw).date = none) ∧
      ((pySplitTab ((statusLines raw).getD 1 "")).length ≤ 2 →
        (parse_status_page raw).time = none) ∧
      ((pySplitTab ((statusLines raw).getD 2 "")).length ≤ 1 →
        (parse_status_page raw).pwm0 = none) ∧
      ((pySplitTab ((statusLines raw).getD 2 "")).length ≤ 2 →
        (parse_status_page raw).pwm1 = none) ∧
      ((pySplitTab ((statusLines raw).getD 2 "")).length ≤ 3 →
        (parse_status_page raw).pwm2 = none) ∧
      ((pySplitTab ((statusLines raw).getD 2 "")).length ≤ 4 →
        (parse_status_page raw).pwm3 = none) ∧
      ((pySplitTab ((statusLines raw).getD 2 "")).length ≤ 5 →
        (parse_status_page raw).manual_intensity = none) ∧
      ((pySplitTab ((statusLines raw).getD 2 "")).length ≤ 6 →
        (parse_status_page raw).manual_color = none) ∧
      ((pySplitTab ((statusLines raw).getD 2 "")).length ≤ 7 →
        (parse_status_page raw).calib_pwm = none) ∧
      ((pySplitTab ((statusLines raw).getD 2 "")).length ≤ 8 →
        (parse_status_page raw).night_mode_enabled = none) ∧
      ((pySplitTab ((statusLines raw).getD 3 "")).length ≤ 1 →
        (parse_status_page raw).schedule_items_count = none) ∧
      ((pySplitTab ((statusLines raw).getD 3 "")).length ≤ 2 →
        (parse_status_page raw).schedule_active_item_idx = none) := by
  constructor
  · decide
  · intro raw
    rw [parse_status_page_eq raw]
    dsimp only
    refine ⟨?_, ?_, ?_, ?_, ?_, ?_, ?_, ?_, ?_, ?_, ?_, ?_, ?_, ?_, ?_, ?_, ?_, ?_, ?_, ?_, ?_⟩ <;>
      intro h
    · simp [show ¬ ((statusLines raw).length > 0) from by omega,
        show ¬ ((statusLines raw).length > 1) from by omega,
        show ¬ ((statusLines raw).length > 2) from by omega,
        show ¬ ((statusLines raw).length > 3) from by omega]
    · exact ⟨by simp [show ¬ ((statusLines raw).length > 1) from by omega],
        by simp [show ¬ ((statusLines raw).length > 1) from by omega],
        by simp [show ¬ ((statusLines raw).length > 1) from by omega]⟩
    · refine ⟨?_, ?_, ?_, ?_, ?_, ?_, ?_, ?_, ?_⟩ <;>
        simp [show ¬ ((statusLines raw).length > 2) from by omega]
    · refine ⟨?_, ?_, ?_⟩ <;>
        simp [show ¬ ((statusLines raw).length > 3) from by omega]
    · exact ite_ite_none _ (by omega)
    · exact ite_ite_none _ (fun hc => absurd hc.1 (by omega))
    · exact ite_ite_none _ (fun hc => absurd hc.1 (by omega))
    · exact ite_ite_none _ (fun hc => absurd hc.1 (by omega))
    · exact ite_ite_none _ (by omega)
    · exact ite_ite_none _ (fun hc => absurd hc.1 (by omega))
    · exact ite_ite_none _ (fun hc => absurd hc.1 (by omega))
    · exact ite_ite_none _ (by omega)
    · exact ite_ite_none _ (by omega)
    · exact ite_ite_none _ (by omega)
    · exact ite_ite_none _ (by omega)
    · exact ite_ite_none _ (by omega)
    · exact ite_ite_none _ (by omega)
    · exact ite_ite_none _ (by omega)
    · exact ite_ite_none _ (fun hc => absurd hc.1 (by omega))
    · exact ite_ite_none _ (by omega)
    · exact ite_ite_none _ (by omega)

/-- C4 witness: a two-line telegram with a short first line leaves the PWM,
schedule, and beyond-token identity fields unset, as the theorem states. -/
theorem c4_decoder_unset_discipline_witness :
    (parse_status_page "Lamp\n1").pwm0 = none ∧
    (parse_status_page "Lamp\n1").schedule_enabled = none ∧
    (parse_status_page "Lamp\n1").model = none ∧
    (parse_status_page "Lamp\n1").date = none := by
  refine ⟨((c4_decoder_unset_discipline.2 "Lamp\n1").2.2.1 (by decide)).2.1,
    ((c4_decoder_unset_discipline.2 "Lamp\n1").2.2.2.1 (by decide)).1,
    (c4_decoder_unset_discipline.2 "Lamp\n1").2.2.2.2.1 (by decide),
    (c4_decoder_unset_discipline.2 "Lamp\n1").2.2.2.2.2.2.2.2.2.1 (by decide)⟩

/-! ### Claim C1: mode / auto-flag consistency -/

theorem liftU_stepUnit_ok_state (res : Except Err Unit × World) (f : CState → CState)
    (s : CState) (r : Option String)
    (h : (liftU (Ctl.stepUnit res f s)).1 = Except.ok r) :
    (liftU (Ctl.stepUnit res f s)).2.1 = f s := by
  obtain ⟨r', w'⟩ := res
  cases r' with
  | ok u => rfl
  | error e => simp [liftU, Ctl.stepUnit, Except.map] at h

theorem liftU_stepUnit_err_state (res : Except Err Unit × World) (f : CState → CState)
    (s : CState) (e : Err)
    (h : (liftU (Ctl.stepUnit res f s)).1 = Except.error e) :
    (liftU (Ctl.stepUnit res f s)).2.1 = s := by
  obtain ⟨r', w'⟩ := res
  cases r' with
  | ok u => simp [liftU, Ctl.stepUnit, Except.map] at h
  | error e' => rfl

theorem liftS_stepRead_err_state (res : Except Err String × World) (s : CState) (e : Err)
    (h : (liftS (Ctl.stepRead res s)).1 = Except.error e) :
    (liftS (Ctl.stepRead res s)).2.1 = s := by
  obtain ⟨r', w'⟩ := res
  cases r' with
  | ok a => simp [liftS, Ctl.stepRead, Except.map] at h
  | error e' => rfl

theorem apply_preset_state_cases (env : Env) (p : Option String) (s : CState) (w : World) :
    ((Ctl.apply_preset env p s w).1 = Except.ok () ∧
      (Ctl.apply_preset env p s w).2.1 =
        { s with
          selected_preset := if Client.pyTruthy p then p.getD "" else s.selected_preset,
          is_auto_mode := false, mode := Mode.MANUAL }) ∨
    ((∃ e, (Ctl.apply_preset env p s w).1 = Except.error e) ∧
      (Ctl.apply_preset env p s w).2.1 = s) := by
  unfold Ctl.apply_preset
  dsimp only
  cases env.presets (if Client.pyTruthy p = true then p.getD "" else s.selected_preset) with
  | none => exact Or.inr ⟨⟨_, rfl⟩, rfl⟩
  | some base =>
    dsimp only
    generalize Client.set_manual_mode w = res₁
    obtain ⟨r₁, w₁⟩ := res₁
    cases r₁ with
    | error e => exact Or.inr ⟨⟨e, rfl⟩, rfl⟩
    | ok u =>
      dsimp only
      generalize Client.send_ctrl (ctrl_with_power s.power base) w₁ = res₂
      obtain ⟨r₂, w₂⟩ := res₂
      cases r₂ with
      | error e => exact Or.inr ⟨⟨e, rfl⟩, rfl⟩
      | ok u' => exact Or.inl ⟨rfl, rfl⟩

theorem apply_preset_ok_state (env : Env) (p : Option String) (s : CState) (w : World)
    (h : (Ctl.apply_preset env p s w).1 = Except.ok ()) :
    (Ctl.apply_preset env p s w).2.1 =
      { s with
        selected_preset := if Client.pyTruthy p then p.getD "" else s.selected_preset,
        is_auto_mode := false, mode := Mode.MANUAL } := by
  rcases apply_preset_state_cases env p s w with ⟨_, hstate⟩ | ⟨⟨e, herr⟩, _⟩
  · exact hstate
  · rw [herr] at h
    cases h

theorem apply_preset_err_state (env : Env) (p : Option String) (s : CState) (w : World)
    (e : Err) (h : (Ctl.apply_preset env p s w).1 = Except.error e) :
    (Ctl.apply_preset env p s w).2.1 = s := by
  rcases apply_preset_state_cases env p s w with ⟨hok, _⟩ | ⟨_, hstate⟩
  · rw [hok] at h
    cases h
  · exact hstate

/-- C1 counterexample: the claim includes `refresh_diagnostics` among the
operations after which the auto-flag is true iff the mode is AUTO, but a
successful refresh from an AUTO state, with the device reporting
schedule-disabled, sets the flag to false while leaving the mode AUTO: the
iff fails immediately after a successful mode-changing operation. -/
theorem c1_refresh_breaks_mode_flag_iff :
    (Ctl.refresh_diagnostics ⟨"A1", 100, none, none, true, Mode.AUTO, none, 0⟩
      ⟨[Except.ok "fw", Except.ok "x\nx\nx\n0"], [10, 11], []⟩).1 = Except.ok () ∧
    (Ctl.refresh_diagnostics ⟨"A1", 100, none, none, true, Mode.AUTO, none, 0⟩
      ⟨[Except.ok "fw", Except.ok "x\nx\nx\n0"], [10, 11], []⟩).2.1.is_auto_mode = false ∧
    (Ctl.refresh_diagnostics ⟨"A1", 100, none, none, true, Mode.AUTO, none, 0⟩
      ⟨[Except.ok "fw", Except.ok "x\nx\nx\n0"], [10, 11], []⟩).2.1.mode = Mode.AUTO ∧
    ¬ ((Ctl.refresh_diagnostics ⟨"A1", 100, none, none, true, Mode.AUTO, none, 0⟩
        ⟨[Except.ok "fw", Except.ok "x\nx\nx\n0"], [10, 11], []⟩).2.1.is_auto_mode = true ↔
      (Ctl.refresh_diagnostics ⟨"A1", 100, none, none, true, Mode.AUTO, none, 0⟩
        ⟨[Except.ok "fw", Except.ok "x\nx\nx\n0"], [10, 11], []⟩).2.1.mode = Mode.AUTO) := by
  refine ⟨rfl, by decide, by decide, by decide⟩

/-- C1 amended: immediately after any of the nine mode-changing command
operations (`apply_preset`, `set_auto_mode`, `set_off_mode`,
`set_demo_mode`, `set_channel_pwm`, `set_all_channels`,
`start_new_schedule`, `manual_mode_1h`, `manual_mode_default`) completes
successfully, the auto-flag is true iff the mode is AUTO.
`refresh_diagnostics` instead copies a present device schedule-enabled
report into the auto-flag — never flipping it against the report — and
forces mode to AUTO exactly when that flag becomes true (a false report
leaves the mode untouched, which can break the iff when the prior mode was
AUTO). -/
theorem c1_mode_flag_consistency_amended :
    (∀ (op : COp) (env : Env) (s : CState) (w : World), isModeOp op = true →
      ∀ r, (runCOp op env s w).1 = Except.ok r →
        ((runCOp op env s w).2.1.is_auto_mode = true ↔
          (runCOp op env s w).2.1.mode = Mode.AUTO)) ∧
    (∀ (s : CState) (w : World) (fwb stb : String) (rest : List (Except String String))
      (b : Bool),
      w.pending = Except.ok fwb :: Except.ok stb :: rest →
      ¬ (w.clock.headD 0 - s.last_refresh_monotonic < 1) →
      (parse_status_page stb).schedule_enabled = some b →
      (Ctl.refresh_diagnostics s w).1 = Except.ok () ∧
      (Ctl.refresh_diagnostics s w).2.1.is_auto_mode = b ∧
      (b = true → (Ctl.refresh_diagnostics s w).2.1.mode = Mode.AUTO) ∧
      (b = false → (Ctl.refresh_diagnostics s w).2.1.mode = s.mode)) := by
  constructor
  · intro op env s w hmode r hok
    cases op <;> simp only [isModeOp, Bool.false_eq_true] at hmode
    case apply_preset p =>
      rw [show (runCOp (COp.apply_preset p) env s w).2.1 = (Ctl.apply_preset env p s w).2.1
          from rfl]
      have hok' : (Ctl.apply_preset env p s w).1 = Except.ok () := by
        have : (runCOp (COp.apply_preset p) env s w).1 =
            Except.map (fun _ => none) (Ctl.apply_preset env p s w).1 := rfl
        rw [this] at hok
        cases hr : (Ctl.apply_preset env p s w).1 with
        | ok u => rfl
        | error e =>
          rw [hr] at hok
          simp [Except.map] at hok
      rw [apply_preset_ok_state env p s w hok']
      simp
    all_goals
      simp only [runCOp, Ctl.set_auto_mode, Ctl.set_off_mode, Ctl.set_demo_mode,
        Ctl.set_channel_pwm, Ctl.set_all_channels, Ctl.start_new_schedule,
        Ctl.manual_mode_1h, Ctl.manual_mode_default] at hok ⊢
    all_goals
      rw [liftU_stepUnit_ok_state _ _ _ r hok]
    all_goals simp
  · intro s w fwb stb rest b hpend hlim hsched
    obtain ⟨p, cl, lg⟩ := w
    simp only at hpend
    subst hpend
    have key : Ctl.refresh_diagnostics s ⟨Except.ok fwb :: Except.ok stb :: rest, cl, lg⟩ =
        (Except.ok (),
         ({ s with
            firmware_version := some (pyStrip fwb),
            status := some (parse_status_page stb), is_auto_mode := b,
            mode := if b then Mode.AUTO else s.mode,
            last_refresh_monotonic := cl.tail.headD 0 } : CState),
         (⟨rest, cl.tail.tail,
          lg ++ [⟨Url.scheduleSettings, some (QKey.params, "n1")⟩,
            ⟨Url.statusPage, none⟩]⟩ : World)) := by
      unfold Ctl.refresh_diagnostics
      dsimp only [readMonotonic]
      rw [if_neg hlim]
      simp [Client.get_firmware_version, Client.get_status_page, httpGet, hsched]
    rw [key]
    refine ⟨rfl, rfl, ?_, ?_⟩
    · intro hb
      simp [hb]
    · intro hb
      simp [hb]

/-- C1 witness: the amended consistency at concrete inputs: a successful
`set_auto_mode` run lands with flag true and mode AUTO (iff holds), and a
refresh whose telegram reports schedule-enabled lands with flag true and
mode AUTO. -/
theorem c1_mode_flag_consistency_witness :
    ((runCOp COp.set_auto_mode ⟨fun _ => none⟩
        ⟨"A1", 100, none, none, false, Mode.OFF, none, 0⟩
        ⟨[Except.ok ""], [], []⟩).2.1.is_auto_mode = true ↔
      (runCOp COp.set_auto_mode ⟨fun _ => none⟩
        ⟨"A1", 100, none, none, false, Mode.OFF, none, 0⟩
        ⟨[Except.ok ""], [], []⟩).2.1.mode = Mode.AUTO) ∧
    (Ctl.refresh_diagnostics ⟨"A1", 100, none, none, false, Mode.OFF, none, 0⟩
      ⟨[Except.ok "fw", Except.ok "x\nx\nx\n1"], [10, 11], []⟩).2.1.is_auto_mode = true ∧
    (Ctl.refresh_diagnostics ⟨"A1", 100, none, none, false, Mode.OFF, none, 0⟩
      ⟨[Except.ok "fw", Except.ok "x\nx\nx\n1"], [10, 11], []⟩).2.1.mode = Mode.AUTO := by
  have h1 := c1_mode_flag_consistency_amended.1 COp.set_auto_mode ⟨fun _ => none⟩
    ⟨"A1", 100, none, none, false, Mode.OFF, none, 0⟩ ⟨[Except.ok ""], [], []⟩ rfl none rfl
  have h2 := c1_mode_flag_consistency_amended.2
    ⟨"A1", 100, none, none, false, Mode.OFF, none, 0⟩
    ⟨[Except.ok "fw", Except.ok "x\nx\nx\n1"], [10, 11], []⟩ "fw" "x\nx\nx\n1" [] true
    rfl (by decide) (by decide)
  exact ⟨h1, h2.2.1, h2.2.2.1 rfl⟩

/-! ### Claim C2: failure leaves controller state unchanged -/

theorem send_raw_state_cases (p c : Option String) (s : CState) (w : World) :
    ((Ctl.send_raw p c s w).2.1 = s ∧ ∃ e, (Ctl.send_raw p c s w).1 = Except.error e) ∨
    (∃ r, (Ctl.send_raw p c s w).1 = Except.ok r) := by
  unfold Ctl.send_raw
  generalize Client.send_raw p c w = res
  obtain ⟨r', w'⟩ := res
  cases r' with
  | ok r => exact Or.inr ⟨r, rfl⟩
  | error e => exact Or.inl ⟨rfl, e, rfl⟩

theorem refresh_diagnostics_err_frame (s : CState) (w : World) :
    (Ctl.refresh_diagnostics s w).1 = Except.ok () ∨
    ((∃ e, (Ctl.refresh_diagnostics s w).1 = Except.error e) ∧
      ((Ctl.refresh_diagnostics s w).2.1 = s ∨
        ∃ fw, (Ctl.refresh_diagnostics s w).2.1 = { s with firmware_version := some fw })) := by
  unfold Ctl.refresh_diagnostics
  dsimp only [readMonotonic]
  by_cases hlim : w.clock.headD 0 - s.last_refresh_monotonic < 1
  · rw [if_pos hlim]
    exact Or.inl rfl
  · rw [if_neg hlim]
    generalize Client.get_firmware_version { w with clock := w.clock.tail } = res₁
    obtain ⟨r₁, w₂⟩ := res₁
    cases r₁ with
    | error e => exact Or.inr ⟨⟨e, rfl⟩, Or.inl rfl⟩
    | ok fw =>
      dsimp only
      generalize Client.get_status_page w₂ = res₂
      obtain ⟨r₂, w₃⟩ := res₂
      cases r₂ with
      | error e => exact Or.inr ⟨⟨e, rfl⟩, Or.inr ⟨fw, rfl⟩⟩
      | ok raw =>
        dsimp only
        cases (parse_status_page raw).schedule_enabled with
        | none => exact Or.inl rfl
        | some b => exact Or.inl rfl

/-- C2 counterexample: `refresh_diagnostics` stores the firmware version
before fetching the status page, so when the firmware fetch succeeds and
the status fetch fails the operation reports the uniform transport failure
yet the controller's `firmware_version` has already changed. -/
theorem c2_refresh_partial_failure_counterexample :
    (Ctl.refresh_diagnostics ⟨"A1", 100, none, none, false, Mode.OFF, none, 0⟩
      ⟨[Except.ok "1.0", Except.error "boom"], [10], []⟩).1 =
      Except.error (Err.unreachable "boom") ∧
    (Ctl.refresh_diagnostics ⟨"A1", 100, none, none, false, Mode.OFF, none, 0⟩
      ⟨[Except.ok "1.0", Except.error "boom"], [10], []⟩).2.1.firmware_version = some "1.0" ∧
    (⟨"A1", 100, none, none, false, Mode.OFF, none, 0⟩ : CState).firmware_version = none := by
  exact ⟨rfl, rfl, rfl⟩

/-- C2 amended: every controller operation other than `refresh_diagnostics`
and `set_power_and_apply` leaves every controller field unchanged when it
fails; a failing `refresh_diagnostics` leaves every field except (possibly)
`firmware_version` unchanged — the firmware version has already been stored
when the subsequent status-page fetch fails; a failing
`set_power_and_apply` has already stored the clamped power, leaving the
rest unchanged. -/
theorem c2_failure_frame_amended :
    (∀ (op : COp) (env : Env) (s : CState) (w : World) (e : Err),
      mutatesBeforeNet op = false →
      (runCOp op env s w).1 = Except.error e → (runCOp op env s w).2.1 = s) ∧
    (∀ (s : CState) (w : World) (e : Err),
      (Ctl.refresh_diagnostics s w).1 = Except.error e →
      ((Ctl.refresh_diagnostics s w).2.1.selected_preset = s.selected_preset ∧
       (Ctl.refresh_diagnostics s w).2.1.power = s.power ∧
       (Ctl.refresh_diagnostics s w).2.1.status = s.status ∧
       (Ctl.refresh_diagnostics s w).2.1.is_auto_mode = s.is_auto_mode ∧
       (Ctl.refresh_diagnostics s w).2.1.mode = s.mode ∧
       (Ctl.refresh_diagnostics s w).2.1.last_raw_response = s.last_raw_response ∧
       (Ctl.refresh_diagnostics s w).2.1.last_refresh_monotonic =
         s.last_refresh_monotonic)) ∧
    (∀ (env : Env) (power : ℤ) (s : CState) (w : World) (e : Err),
      (Ctl.set_power_and_apply env power s w).1 = Except.error e →
      (Ctl.set_power_and_apply env power s w).2.1 = Ctl.set_power power s) := by
  refine ⟨?_, ?_, ?_⟩
  · intro op env s w e hmut herr
    cases op
    case set_power p => simp [runCOp] at herr
    case set_power_and_apply p => simp [mutatesBeforeNet] at hmut
    case refresh_diagnostics => simp [mutatesBeforeNet] at hmut
    case apply_preset p =>
      rcases apply_preset_state_cases env p s w with ⟨hok, _⟩ | ⟨_, hstate⟩
      · exfalso
        have hcast : (runCOp (COp.apply_preset p) env s w).1 = Except.ok none := by
          show Except.map (fun _ => none) (Ctl.apply_preset env p s w).1 = _
          rw [hok]
          rfl
        rw [hcast] at herr
        cases herr
      · exact hstate
    case set_mode m =>
      cases m
      case MANUAL =>
        rcases apply_preset_state_cases env none s w with ⟨hok, _⟩ | ⟨_, hstate⟩
        · exfalso
          have hcast : (runCOp (COp.set_mode Mode.MANUAL) env s w).1 = Except.ok none := by
            show Except.map (fun _ => none) (Ctl.apply_preset env none s w).1 = _
            rw [hok]
            rfl
          rw [hcast] at herr
          cases herr
        · exact hstate
      case AUTO => exact liftU_stepUnit_err_state _ _ _ e herr
      case OFF => exact liftU_stepUnit_err_state _ _ _ e herr
      case DEMO => exact liftU_stepUnit_err_state _ _ _ e herr
    case send_raw p c =>
      rcases send_raw_state_cases p c s w with ⟨hstate, _⟩ | ⟨r, hok⟩
      · exact hstate
      · exfalso
        have hcast : (runCOp (COp.send_raw p c) env s w).1 = Except.ok (some r) := by
          show Except.map some (Ctl.send_raw p c s w).1 = _
          rw [hok]
          rfl
        rw [hcast] at herr
        cases herr
    all_goals
      first
      | exact liftU_stepUnit_err_state _ _ _ e herr
      | exact liftS_stepRead_err_state _ _ e herr
  · intro s w e herr
    rcases refresh_diagnostics_err_frame s w with hok | ⟨_, hstate | ⟨fw, hstate⟩⟩
    · rw [hok] at herr
      cases herr
    · rw [hstate]
      exact ⟨rfl, rfl, rfl, rfl, rfl, rfl, rfl⟩
    · rw [hstate]
      exact ⟨rfl, rfl, rfl, rfl, rfl, rfl, rfl⟩
  · intro env power s w e herr
    exact apply_preset_err_state env none (Ctl.set_power power s) w e herr

/-- C2 witness: the amended frame at concrete failing runs: a failed
`set_auto_mode` leaves the state untouched; a refresh with both firmware
attempts failing leaves every field (including firmware) untouched; a
`set_power_and_apply` against an empty preset table fails after storing
only the clamped power. -/
theorem c2_failure_frame_witness :
    (runCOp COp.set_auto_mode ⟨fun _ => none⟩
      ⟨"A1", 100, none, none, false, Mode.OFF, none, 0⟩
      ⟨[Except.error "t"], [], []⟩).2.1 =
      ⟨"A1", 100, none, none, false, Mode.OFF, none, 0⟩ ∧
    (Ctl.refresh_diagnostics ⟨"A1", 100, none, none, false, Mode.OFF, none, 0⟩
      ⟨[Except.error "a", Except.error "b"], [10], []⟩).2.1.power = 100 ∧
    (Ctl.set_power_and_apply ⟨fun _ => none⟩ 150
      ⟨"A1", 100, none, none, false, Mode.OFF, none, 0⟩ ⟨[], [], []⟩).2.1 =
      Ctl.set_power 150 ⟨"A1", 100, none, none, false, Mode.OFF, none, 0⟩ ∧
    Ctl.set_power 150 ⟨"A1", 100, none, none, false, Mode.OFF, none, 0⟩ =
      ⟨"A1", 100, none, none, false, Mode.OFF, none, 0⟩ := by
  refine ⟨?_, ?_, ?_, by decide⟩
  · exact c2_failure_frame_amended.1 COp.set_auto_mode ⟨fun _ => none⟩
      ⟨"A1", 100, none, none, false, Mode.OFF, none, 0⟩ ⟨[Except.error "t"], [], []⟩
      (Err.unreachable "t") rfl rfl
  · exact (c2_failure_frame_amended.2.1 ⟨"A1", 100, none, none, false, Mode.OFF, none, 0⟩
      ⟨[Except.error "a", Except.error "b"], [10], []⟩ (Err.unreachable "b") rfl).2.1
  · exact c2_failure_frame_amended.2.2 ⟨fun _ => none⟩ 150
      ⟨"A1", 100, none, none, false, Mode.OFF, none, 0⟩ ⟨[], [], []⟩
      (Err.invalidArg "Unknown preset: A1") rfl

/-! ### Claim C6: refresh rate limiting -/

/-- C6 counterexample: one full diagnostic refresh already performs two
HTTP round-trips (the firmware-version GET and the status-page GET), so two
refresh calls within one second perform two network round-trips in total,
not "exactly one"; the second call itself performs none. -/
theorem c6_two_requests_counterexample :
    (Ctl.refresh_diagnostics ⟨"A1", 100, none, none, false, Mode.OFF, none, 0⟩
      ⟨[Except.ok "fw", Except.ok ""], [100, 201 / 2, 101], []⟩).1 = Except.ok () ∧
    (Ctl.refresh_diagnostics
      (Ctl.refresh_diagnostics ⟨"A1", 100, none, none, false, Mode.OFF, none, 0⟩
        ⟨[Except.ok "fw", Except.ok ""], [100, 201 / 2, 101], []⟩).2.1
      (Ctl.refresh_diagnostics ⟨"A1", 100, none, none, false, Mode.OFF, none, 0⟩
        ⟨[Except.ok "fw", Except.ok ""], [100, 201 / 2, 101], []⟩).2.2).1 = Except.ok () ∧
    (Ctl.refresh_diagnostics
      (Ctl.refresh_diagnostics ⟨"A1", 100, none, none, false, Mode.OFF, none, 0⟩
        ⟨[Except.ok "fw", Except.ok ""], [100, 201 / 2, 101], []⟩).2.1
      (Ctl.refresh_diagnostics ⟨"A1", 100, none, none, false, Mode.OFF, none, 0⟩
        ⟨[Except.ok "fw", Except.ok ""], [100, 201 / 2, 101], []⟩).2.2).2.2.log.length = 2 ∧
    ¬ ((Ctl.refresh_diagnostics
      (Ctl.refresh_diagnostics ⟨"A1", 100, none, none, false, Mode.OFF, none, 0⟩
        ⟨[Except.ok "fw", Except.ok ""], [100, 201 / 2, 101], []⟩).2.1
      (Ctl.refresh_diagnostics ⟨"A1", 100, none, none, false, Mode.OFF, none, 0⟩
        ⟨[Except.ok "fw", Except.ok ""], [100, 201 / 2, 101], []⟩).2.2).2.2.log.length = 1) := by
  refine ⟨rfl, rfl, rfl, by decide⟩

/-- C6 amended: a full diagnostic refresh performs the two GET round-trips
of one fetch (firmware version, then status page); a second call less than
1 second (by the monotonic clock) after the last successful refresh returns
immediately, performing zero network requests and leaving the state —
including the cached snapshot — untouched; a further call at least 1 second
after the last successful refresh performs a second fetch's two
round-trips. -/
theorem c6_rate_limit_amended :
    ∀ (s : CState) (w : World) (t₁ t₁' t₂ t₃ t₃' : ℚ) (fw st fw₂ st₂ : String),
      w.clock = [t₁, t₁', t₂, t₃, t₃'] →
      w.pending = [Except.ok fw, Except.ok st, Except.ok fw₂, Except.ok st₂] →
      1 ≤ t₁ - s.last_refresh_monotonic →
      t₂ - t₁' < 1 →
      1 ≤ t₃ - t₁' →
      (Ctl.refresh_diagnostics s w).1 = Except.ok () ∧
      (Ctl.refresh_diagnostics s w).2.2.log.length = w.log.length + 2 ∧
      (Ctl.refresh_diagnostics (Ctl.refresh_diagnostics s w).2.1
        (Ctl.refresh_diagnostics s w).2.2).1 = Except.ok () ∧
      (Ctl.refresh_diagnostics (Ctl.refresh_diagnostics s w).2.1
        (Ctl.refresh_diagnostics s w).2.2).2.1 = (Ctl.refresh_diagnostics s w).2.1 ∧
      (Ctl.refresh_diagnostics (Ctl.refresh_diagnostics s w).2.1
        (Ctl.refresh_diagnostics s w).2.2).2.2.log = (Ctl.refresh_diagnostics s w).2.2.log ∧
      (Ctl.refresh_diagnostics
        (Ctl.refresh_diagnostics (Ctl.refresh_diagnostics s w).2.1
          (Ctl.refresh_diagnostics s w).2.2).2.1
        (Ctl.refresh_diagnostics (Ctl.refresh_diagnostics s w).2.1
          (Ctl.refresh_diagnostics s w).2.2).2.2).1 = Except.ok () ∧
      (Ctl.refresh_diagnostics
        (Ctl.refresh_diagnostics (Ctl.refresh_diagnostics s w).2.1
          (Ctl.refresh_diagnostics s w).2.2).2.1
        (Ctl.refresh_diagnostics (Ctl.refresh_diagnostics s w).2.1
          (Ctl.refresh_diagnostics s w).2.2).2.2).2.2.log.length = w.log.length + 4 := by
  intro s w t₁ t₁' t₂ t₃ t₃' fw st fw₂ st₂ hclock hpend h₁ h₂ h₃
  obtain ⟨p, cl, lg⟩ := w
  simp only at hclock hpend
  subst hclock
  subst hpend
  have hlim₁ : ¬ (([t₁, t₁', t₂, t₃, t₃'] : List ℚ).headD 0 - s.last_refresh_monotonic < 1) := by
    simp only [List.headD_cons]
    linarith
  have key₁ : ∃ s₁ : CState,
      Ctl.refresh_diagnostics s
        ⟨[Except.ok fw, Except.ok st, Except.ok fw₂, Except.ok st₂],
         [t₁, t₁', t₂, t₃, t₃'], lg⟩ =
        (Except.ok (), s₁,
         (⟨[Except.ok fw₂, Except.ok st₂], [t₂, t₃, t₃'],
          lg ++ [⟨Url.scheduleSettings, some (QKey.params, "n1")⟩] ++
            [⟨Url.statusPage, none⟩]⟩ : World)) ∧
      s₁.last_refresh_monotonic = t₁' := by
    unfold Ctl.refresh_diagnostics
    dsimp only [readMonotonic]
    rw [if_neg hlim₁]
    simp only [Client.get_firmware_version, Client.get_status_page, httpGet,
      List.tail_cons]
    try dsimp only
    cases (parse_status_page st).schedule_enabled with
    | none =>
      refine ⟨_, rfl, ?_⟩
      rfl
    | some b =>
      refine ⟨_, rfl, ?_⟩
      rfl
  obtain ⟨s₁, hrun₁, hstamp₁⟩ := key₁
  rw [hrun₁]
  have hlim₂ : (([t₂, t₃, t₃'] : List ℚ).headD 0 - s₁.last_refresh_monotonic < 1) := by
    simp only [List.headD_cons]
    rw [hstamp₁]
    linarith
  have key₂ : Ctl.refresh_diagnostics s₁
      (⟨[Except.ok fw₂, Except.ok st₂], [t₂, t₃, t₃'],
        lg ++ [⟨Url.scheduleSettings, some (QKey.params, "n1")⟩] ++
          [⟨Url.statusPage, none⟩]⟩ : World) =
      (Except.ok (), s₁,
       (⟨[Except.ok fw₂, Except.ok st₂], [t₃, t₃'],
        lg ++ [⟨Url.scheduleSettings, some (QKey.params, "n1")⟩] ++
          [⟨Url.statusPage, none⟩]⟩ : World)) := by
    unfold Ctl.refresh_diagnostics
    dsimp only [readMonotonic]
    rw [if_pos hlim₂]
    rfl
  rw [key₂]
  have hlim₃ : ¬ (([t₃, t₃'] : List ℚ).headD 0 - s₁.last_refresh_monotonic < 1) := by
    simp only [List.headD_cons]
    rw [hstamp₁]
    linarith
  have key₃ : (Ctl.refresh_diagnostics s₁
      (⟨[Except.ok fw₂, Except.ok st₂], [t₃, t₃'],
        lg ++ [⟨Url.scheduleSettings, some (QKey.params, "n1")⟩] ++
          [⟨Url.statusPage, none⟩]⟩ : World)).1 = Except.ok () ∧
      (Ctl.refresh_diagnostics s₁
      (⟨[Except.ok fw₂, Except.ok st₂], [t₃, t₃'],
        lg ++ [⟨Url.scheduleSettings, some (QKey.params, "n1")⟩] ++
          [⟨Url.statusPage, none⟩]⟩ : World)).2.2.log =
      lg ++ [⟨Url.scheduleSettings, some (QKey.params, "n1")⟩] ++ [⟨Url.statusPage, none⟩] ++
        [⟨Url.scheduleSettings, some (QKey.params, "n1")⟩] ++ [⟨Url.statusPage, none⟩] := by
    unfold Ctl.refresh_diagnostics
    dsimp only [readMonotonic]
    rw [if_neg hlim₃]
    simp only [Client.get_firmware_version, Client.get_status_page, httpGet,
      List.tail_cons]
    try dsimp only
    cases (parse_status_page st₂).schedule_enabled with
    | none => exact ⟨trivial, by simp⟩
    | some b => exact ⟨trivial, by simp⟩
  refine ⟨rfl, ?_, rfl, rfl, rfl, key₃.1, ?_⟩
  · simp
  · rw [key₃.2]
    simp

/-- C6 witness: the amended rate-limit behaviour at concrete times: a
refresh at t=100 (stamped 100.5) performs two GETs, a second call at
t=101 within the 1-second window performs none and preserves the state,
and a third call at t=102 performs two more. -/
theorem c6_rate_limit_amended_witness :
    (Ctl.refresh_diagnostics ⟨"A1", 100, none, none, false, Mode.OFF, none, 0⟩
      ⟨[Except.ok "fw", Except.ok "", Except.ok "fw", Except.ok ""],
       [100, 201 / 2, 101, 102, 205 / 2], []⟩).1 = Except.ok () ∧
    (Ctl.refresh_diagnostics ⟨"A1", 100, none, none, false, Mode.OFF, none, 0⟩
      ⟨[Except.ok "fw", Except.ok "", Except.ok "fw", Except.ok ""],
       [100, 201 / 2, 101, 102, 205 / 2], []⟩).2.2.log.length = 2 ∧
    (Ctl.refresh_diagnostics
      (Ctl.refresh_diagnostics
        (Ctl.refresh_diagnostics ⟨"A1", 100, none, none, false, Mode.OFF, none, 0⟩
          ⟨[Except.ok "fw", Except.ok "", Except.ok "fw", Except.ok ""],
           [100, 201 / 2, 101, 102, 205 / 2], []⟩).2.1
        (Ctl.refresh_diagnostics ⟨"A1", 100, none, none, false, Mode.OFF, none, 0⟩
          ⟨[Except.ok "fw", Except.ok "", Except.ok "fw", Except.ok ""],
           [100, 201 / 2, 101, 102, 205 / 2], []⟩).2.2).2.1
      (Ctl.refresh_diagnostics
        (Ctl.refresh_diagnostics ⟨"A1", 100, none, none, false, Mode.OFF, none, 0⟩
          ⟨[Except.ok "fw", Except.ok "", Except.ok "fw", Except.ok ""],
           [100, 201 / 2, 101, 102, 205 / 2], []⟩).2.1
        (Ctl.refresh_diagnostics ⟨"A1", 100, none, none, false, Mode.OFF, none, 0⟩
          ⟨[Except.ok "fw", Except.ok "", Except.ok "fw", Except.ok ""],
           [100, 201 / 2, 101, 102, 205 / 2], []⟩).2.2).2.2).2.2.log.length = 4 := by
  have h := c6_rate_limit_amended ⟨"A1", 100, none, none, false, Mode.OFF, none, 0⟩
    ⟨[Except.ok "fw", Except.ok "", Except.ok "fw", Except.ok ""],
     [100, 201 / 2, 101, 102, 205 / 2], []⟩ 100 (201 / 2) 101 102 (205 / 2)
    "fw" "" "fw" "" rfl rfl (by norm_num) (by norm_num) (by norm_num)
  exact ⟨h.1, h.2.1, h.2.2.2.2.2.2⟩

end Skylight
